import Mathlib

set_option maxRecDepth 10000
set_option maxHeartbeats 1000000

namespace CosmICweb

/-! # Shallow embedding of cosmICweb-music (src/cosmicweb_music)

Python strings are modelled by Lean `String` (a wrapper around `List Char`);
the Python `str` operations used by the source (`split`, `strip`, `join`,
`replace`, f-string interpolation) are re-implemented below on `List Char`
with the exact semantics of the CPython operations that the source calls.
HTTP traffic is modelled by response oracles: a function giving, for each
request (identified by URL and/or attempt number), the outcome of that
request: a parsed JSON payload, an HTTP error status (what
`raise_for_status` turns into `requests.exceptions.HTTPError`), or a
transport-level error (`requests.exceptions.ConnectionError` etc., which is
not an `HTTPError`).  Python numbers appearing in the data (`float` radii,
`int` levels) are modelled by `Rat` and `Int`; timestamps are modelled by
their ISO-8601 rendering as a `String`. -/

/-- The ASCII characters stripped by Python `str.strip()` (the texts the
program manipulates are ASCII configuration files). -/
def isPySpace (c : Char) : Bool :=
  c = ' ' || c = '\t' || c = '\n' || c = '\r' || c = '\x0b' || c = '\x0c'

/-- Left part of Python `str.strip`. -/
def lstripL (s : List Char) : List Char := s.dropWhile isPySpace

/-- Right part of Python `str.strip`. -/
def rstripL (s : List Char) : List Char := (s.reverse.dropWhile isPySpace).reverse

/-- Python `s.strip()` on the character list. -/
def stripL (s : List Char) : List Char := rstripL (lstripL s)

/-- Python `s.strip()`. -/
def pyStrip (s : String) : String := ⟨stripL s.data⟩

/-- Python `s.split(sep)` for a one-character separator `sep`, on the
character list: splits at every occurrence, keeps empty parts, always
returns at least one part. -/
def splitOnChar (c : Char) : List Char → List (List Char)
  | [] => [[]]
  | x :: xs =>
    if x = c then [] :: splitOnChar c xs
    else
      match splitOnChar c xs with
      | [] => [[x]]
      | r :: rs => (x :: r) :: rs

/-- Python `s.split(sep)` for a one-character separator. -/
def pySplit (c : Char) (s : String) : List String :=
  (splitOnChar c s.data).map String.mk

/-- The list of lines of `s`, as produced by Python `s.split("\n")`. -/
def pyLines (s : String) : List String := pySplit '\n' s

/-- Python `sep.join(parts)` on character lists. -/
def joinSepL (sep : List Char) : List (List Char) → List Char
  | [] => []
  | [l] => l
  | l :: ls => l ++ sep ++ joinSepL sep ls

/-- Python `sep.join(parts)`. -/
def pyJoinSep (sep : String) (ls : List String) : String :=
  ⟨joinSepL sep.data (ls.map String.data)⟩

/-- Boolean "is a list prefix of" test. -/
def isPref : List Char → List Char → Bool
  | [], _ => true
  | _ :: _, [] => false
  | a :: as, b :: bs => a = b && isPref as bs

/-- `occursB pat s` is true iff `pat` occurs as a contiguous substring of
`s` (at any position, including the end for an empty `pat`). -/
def occursB (pat : List Char) : List Char → Bool
  | [] => isPref pat []
  | c :: rest => isPref pat (c :: rest) || occursB pat rest

/-- Core of Python `s.replace(pat, rep)` for a nonempty pattern
`p :: ps`: scans left to right, replacing each (non-overlapping)
occurrence.  The `Nat` argument counts characters of an already-replaced
match still to be skipped (structural recursion on the scanned list, so
that concrete runs reduce). -/
def replaceFrom (p : Char) (ps rep : List Char) : Nat → List Char → List Char
  | _, [] => []
  | n, c :: rest =>
    match n with
    | 0 =>
      if isPref (p :: ps) (c :: rest) then
        rep ++ replaceFrom p ps rep ps.length rest
      else
        c :: replaceFrom p ps rep 0 rest
    | m + 1 => replaceFrom p ps rep m rest

/-- Python `s.replace(pat, rep)` (the source only calls it with the
nonempty literal pattern `<ELLIPSOID_TEMPLATE>`). -/
def pyReplace (s pat rep : String) : String :=
  match pat.data with
  | [] => s
  | p :: ps => ⟨replaceFrom p ps rep.data 0 s.data⟩

/-- Python `os.path.join(a, b)` (POSIX, two arguments). -/
def pathJoin (a b : String) : String :=
  if b.data.head? = some '/' then b
  else if a.data = [] || a.data.getLast? = some '/' then a ++ b
  else a ++ "/" ++ b

/-! ## Data model (src/cosmicweb_music/data_types.py) -/

/-- `Ellipsoid` (data_types.py): the per-halo refinement region.  Python
floats are modelled by `Rat`. -/
structure Ellipsoid where
  center : List Rat
  shape : List (List Rat)
  traceback_radius : Rat
  radius_definition : String
deriving DecidableEq

/-- `Resolution` (data_types.py). -/
structure Resolution where
  low : Int
  high : Int
deriving DecidableEq

/-- `Configuration` (data_types.py): the optional settings block of a
download store.  `separateFolders` and `tracebackRadius` are carried by the
JSON but never read by the modelled code paths, so they are omitted. -/
structure Configuration where
  outputType : String
  resolution : Resolution
  outputOptions : List (String × String)
  startRedshift : Int
  outputFilename : String
deriving DecidableEq

/-- `ICSections` (data_types.py): the four raw MUSIC template sections. -/
structure ICSections where
  setup : String
  random : String
  cosmology : String
  poisson : String
deriving DecidableEq

/-- `DownloadConfig` (data_types.py).  `accessed_at` (a `datetime`) is
modelled by its ISO rendering. -/
structure DownloadConfig where
  simulation_name : String
  project_name : String
  halo_names : List String
  halo_ids : List Int
  halo_urls : List String
  traceback_radius : Rat
  api_token : String
  MUSIC : ICSections
  settings : Option Configuration
  accessed_at : String
deriving DecidableEq

/-- `Args` (data_types.py): the CLI run configuration. -/
structure Args where
  url : String
  output_path : String
  common_directory : Bool
  attempts : Nat
deriving DecidableEq

/-! ## The network model

Each HTTP request made by the program is resolved by an oracle.  A request
either returns a parsed JSON payload (`success`, covering every 2xx
response), or completes with a non-2xx status — which `raise_for_status`
turns into a `requests.exceptions.HTTPError` — or fails at transport level
(`ConnectionError`, timeout, ...), which raises an exception that is *not*
an `HTTPError`. -/

/-- Outcome of one HTTP request. -/
inductive Response (α : Type) where
  | success (content : α)
  | httpError
  | transportError
deriving DecidableEq

/-- One element of the JSON array returned by `GET {halo_url}/ellipsoids`. -/
structure RawEllipsoid where
  ellips_center : List Rat
  ellips_matrix : List (List Rat)
  radius_definition : String
  traceback_radius : Rat
deriving DecidableEq

/-- The `Ellipsoid(...)` constructor call in the list comprehension of
`fetch_ellipsoids` (cosmICweb.py lines 74-82). -/
def parseEllipsoid (e : RawEllipsoid) : Ellipsoid :=
  { center := e.ellips_center
    shape := e.ellips_matrix
    traceback_radius := e.traceback_radius
    radius_definition := e.radius_definition }

deriving instance DecidableEq for Except

/-- Observable result of a call of `fetch_ellipsoids`/`fetch_ellipsoid`:
the returned value (`Except.error ()` models an uncaught exception
propagating out of the function), the number of HTTP requests issued, and
the number of `logging.warning` pairs emitted for failed attempts. -/
structure FetchTrace (α : Type) where
  outcome : Except Unit α
  requests : Nat
  warnings : Nat
deriving DecidableEq

/-! ## Routines (src/cosmicweb_music/cosmICweb.py) -/

/-- The `for i in range(attempts)` loop of `fetch_ellipsoids`
(cosmICweb.py lines 63-84): `i` is the next attempt index, the second
argument is the number of attempts left.  A successful attempt returns
the parsed ellipsoid list at once; an `HTTPError` logs a warning and
retries; any other request exception is not caught and propagates; when
the loop ends, `[]` is returned after a `logging.error`. -/
def fetchLoop (responses : Nat → Response (List RawEllipsoid)) :
    Nat → Nat → FetchTrace (List Ellipsoid)
  | _, 0 => ⟨Except.ok [], 0, 0⟩
  | i, n + 1 =>
    match responses i with
    | Response.success content => ⟨Except.ok (content.map parseEllipsoid), 1, 0⟩
    | Response.httpError =>
      let t := fetchLoop responses (i + 1) n
      ⟨t.outcome, t.requests + 1, t.warnings + 1⟩
    | Response.transportError => ⟨Except.error (), 1, 0⟩

/-- `fetch_ellipsoids(url, api_token, attempts)` (cosmICweb.py lines
63-84).  The URL and bearer token select which oracle the caller passes
in; the oracle gives the outcome of the request of each attempt. -/
def fetch_ellipsoids (responses : Nat → Response (List RawEllipsoid))
    (attempts : Nat) : FetchTrace (List Ellipsoid) :=
  fetchLoop responses 0 attempts

/-- `fetch_ellipsoid(url, api_token, traceback_radius, attempts)`
(cosmICweb.py lines 87-95): fetches the list and returns
`next((e for e in ellipsoids if e.traceback_radius == traceback_radius), None)`
when the list is non-empty, `None` otherwise. -/
def fetch_ellipsoid (responses : Nat → Response (List RawEllipsoid))
    (traceback_radius : Rat) (attempts : Nat) : FetchTrace (Option Ellipsoid) :=
  let t := fetch_ellipsoids responses attempts
  { outcome := t.outcome.map (fun ellipsoids =>
      if ellipsoids.isEmpty then none
      else ellipsoids.find? (fun e => e.traceback_radius == traceback_radius))
    requests := t.requests
    warnings := t.warnings }

/-- Return value of a top-level fetch routine together with its process
effects.  `exited code` models `sys.exit(code)`, `raised` an uncaught
exception, `valueError` the `ValueError` raised by input validation. -/
inductive ProcResult (α : Type) where
  | ok (a : α)
  | exited (code : Nat)
  | raised
  | valueError
deriving DecidableEq

/-- Observable behaviour of one call of `fetch_downloadstore` or
`fetch_multiple`: its result, the number of HTTP requests issued, and the
number of `logging.critical` lines emitted. -/
structure CallTrace (α : Type) where
  result : ProcResult α
  requests : Nat
  criticals : Nat
deriving DecidableEq

/-- The `simulation` object common to all bundle responses. -/
structure RawSimulation where
  name : String
  project_name : String
  api_url : String
  api_id : Int
  api_token : String
  ics : ICSections
deriving DecidableEq

/-- JSON payload of `GET {base}/api/music/store/{target}`. -/
structure RawStoreContent where
  simulation : RawSimulation
  halos : List Int
  traceback_radius : Rat
  configuration : Option Configuration
deriving DecidableEq

/-- One halo object of a publication/collection payload: an id and a
possibly-null name. -/
structure RawHalo where
  id : Int
  name : Option String
deriving DecidableEq

/-- JSON payload of `GET {base}/api/publications/{name}` and
`GET {base}/api/collections/{uuid}`. -/
structure RawMultiContent where
  simulation : RawSimulation
  halos : List RawHalo
deriving DecidableEq

/-- `fetch_downloadstore(cosmicweb_url, target)` (cosmICweb.py lines
98-126).  An `HTTPError` logs two critical lines and calls `sys.exit(1)`;
a transport error propagates uncaught; on success one `DownloadConfig` is
built: names synthesized as `"halo_" + id`, ids taken verbatim, URLs
interpolated from the simulation fields, `accessed_at = datetime.now()`
(injected here as `now`). -/
def fetch_downloadstore (response : String → Response RawStoreContent)
    (cosmicweb_url target now : String) : CallTrace DownloadConfig :=
  match response (cosmicweb_url ++ "/api/music/store/" ++ target) with
  | Response.httpError => ⟨ProcResult.exited 1, 1, 2⟩
  | Response.transportError => ⟨ProcResult.raised, 1, 0⟩
  | Response.success content =>
    let sim := content.simulation
    let halo_urls := content.halos.map (fun h =>
      sim.api_url ++ "/simulation/" ++ toString sim.api_id ++ "/halo/" ++ toString h)
    ⟨ProcResult.ok
      { simulation_name := sim.name
        project_name := sim.project_name
        halo_names := content.halos.map (fun h => "halo_" ++ toString h)
        halo_ids := content.halos
        halo_urls := halo_urls
        traceback_radius := content.traceback_radius
        api_token := sim.api_token
        MUSIC := sim.ics
        settings := content.configuration
        accessed_at := now }, 1, 0⟩

/-- Python truthiness of an optional string argument defaulting to `None`
(`None` and the empty string are falsy). -/
def strTruthy : Option String → Bool
  | none => false
  | some s => !(s == "")

/-- The body of `fetch_multiple` after the URL has been chosen
(cosmICweb.py lines 141-175): same fatal error handling as
`fetch_downloadstore`; halo names fall back from a null server name to
`str(h["id"])`; `settings = None` and the caller-supplied traceback
radius is stored. -/
def fetchMultipleFrom (response : String → Response RawMultiContent)
    (url : String) (traceback_radius : Rat) (now : String) :
    CallTrace DownloadConfig :=
  match response url with
  | Response.httpError => ⟨ProcResult.exited 1, 1, 2⟩
  | Response.transportError => ⟨ProcResult.raised, 1, 0⟩
  | Response.success content =>
    let sim := content.simulation
    ⟨ProcResult.ok
      { simulation_name := sim.name
        project_name := sim.project_name
        halo_names := content.halos.map (fun h => h.name.getD (toString h.id))
        halo_ids := content.halos.map (fun h => h.id)
        halo_urls := content.halos.map (fun h =>
          sim.api_url ++ "/simulation/" ++ toString sim.api_id ++ "/halo/" ++ toString h.id)
        traceback_radius := traceback_radius
        api_token := sim.api_token
        MUSIC := sim.ics
        settings := none
        accessed_at := now }, 1, 0⟩

/-- `fetch_multiple(cosmicweb_url, traceback_radius, publication_name,
collection_uuid)` (cosmICweb.py lines 129-175).  URL selection by Python
truthiness of the two optional arguments; with neither a truthy
publication name nor a truthy collection uuid a `ValueError` is raised
before any request. -/
def fetch_multiple (response : String → Response RawMultiContent)
    (cosmicweb_url : String) (traceback_radius : Rat)
    (publication_name collection_uuid : Option String) (now : String) :
    CallTrace DownloadConfig :=
  if strTruthy publication_name then
    fetchMultipleFrom response
      (cosmicweb_url ++ "/api/publications/" ++ publication_name.getD "")
      traceback_radius now
  else if strTruthy collection_uuid then
    fetchMultipleFrom response
      (cosmicweb_url ++ "/api/collections/" ++ collection_uuid.getD "")
      traceback_radius now
  else ⟨ProcResult.valueError, 0, 0⟩

/-- The per-line step of `apply_config_parameter` (cosmICweb.py lines
194-198): `param = line.split("=")[0].strip()`; if `param` is a key of
`parameters`, the line becomes `line.split("=")[0] + "= " + value`,
otherwise it is unchanged. -/
def applyParamLine (parameters : List (String × String)) (line : String) :
    String :=
  let param := pyStrip ((pySplit '=' line).headD line)
  match parameters.lookup param with
  | some v => ((pySplit '=' line).headD line) ++ "= " ++ v
  | none => line

/-- `apply_config_parameter(config, parameters)` (cosmICweb.py lines
192-199).  The Python `dict` of parameters is modelled by an association
list with distinct keys (every call site passes distinct keys); values are
already rendered by `str` as the f-string does. -/
def apply_config_parameter (config : String)
    (parameters : List (String × String)) : String :=
  pyJoinSep "\n" ((pyLines config).map (applyParamLine parameters))

/-- `normalize_lineendings(text)` (cosmICweb.py lines 202-203):
`text.replace("\r\n", "\n")`, scanning left to right. -/
def normCharsCRLF : List Char → List Char
  | '\r' :: '\n' :: rest => '\n' :: normCharsCRLF rest
  | c :: rest => c :: normCharsCRLF rest
  | [] => []

/-- `normalize_lineendings` on `String`. -/
def normalize_lineendings (text : String) : String := ⟨normCharsCRLF text.data⟩

/-- The draft body assembled by `music_config_to_template` before any
settings are applied (cosmICweb.py lines 206-217): the four normalized
sections under bracketed headers with the placeholder token after the
setup section (the local variable `config` right after the big
concatenation). -/
def musicBody (config : DownloadConfig) : String :=
  "[setup]\n" ++ normalize_lineendings config.MUSIC.setup
    ++ "\n\n<ELLIPSOID_TEMPLATE>\n\n[cosmology]\n"
    ++ normalize_lineendings config.MUSIC.cosmology ++ "\n\n[random]\n"
    ++ normalize_lineendings config.MUSIC.random ++ "\n\n[poisson]\n"
    ++ normalize_lineendings config.MUSIC.poisson ++ "\n\n"

/-- The parameter dict passed to `apply_config_parameter`
(cosmICweb.py lines 219-227), with values rendered by `str` as the
f-string `f"= {parameters[param]}"` does. -/
def paramsOf (settings : Configuration) : List (String × String) :=
  [("levelmin", toString settings.resolution.low),
   ("levelmin_TF", toString settings.resolution.low),
   ("levelmax", toString settings.resolution.high),
   ("zstart", toString settings.startRedshift)]

/-- The stripped `[output]` block literal of `music_config_to_template`
(cosmICweb.py lines 229-233): the triple-quoted f-string, including its
leading newline and the trailing spaces of the source indentation, with
`.strip()` applied. -/
def outputBlock (settings : Configuration) : String :=
  pyStrip ("\n[output]\nformat = " ++ settings.outputType
    ++ "\nfilename = " ++ settings.outputFilename ++ "\n            ")

/-- The `key = value` lines appended for `outputOptions`
(cosmICweb.py lines 235-236). -/
def outputOptionsText (settings : Configuration) : String :=
  String.join (settings.outputOptions.map (fun kv =>
    kv.1 ++ " = " ++ kv.2 ++ "\n"))

/-- `music_config_to_template(config)` (cosmICweb.py lines 206-240). -/
def music_config_to_template (config : DownloadConfig) : String :=
  let base := musicBody config
  let c1 :=
    match config.settings with
    | none => base
    | some settings =>
      let c := apply_config_parameter base (paramsOf settings)
      if settings.outputType == "" then c
      else c ++ outputBlock settings ++ "\n" ++ outputOptionsText settings
  let needStub :=
    match config.settings with
    | none => true
    | some settings => settings.outputType == ""
  if needStub then c1 ++ "[output]\n# TODO: add output options" else c1

/-- Rendering of a Python number into the composed text.  The source uses
`str(e)` on JSON numbers; digit-level formatting of non-integral values is
irrelevant to every claim, so the default `Rat` rendering stands in for
CPython float `repr`. -/
def pyFloatStr (x : Rat) : String := toString x

/-- `compose_template(template, ellipsoid, config, halo_name, halo_id,
now)` (cosmICweb.py lines 243-275).  `now` is the injectable timestamp,
modelled by its `isoformat()` string. -/
def compose_template (template : String) (ellipsoid : Ellipsoid)
    (config : DownloadConfig) (halo_name : String) (halo_id : Int)
    (now : String) : String :=
  let shape_0 := pyJoinSep ", " ((ellipsoid.shape.getD 0 []).map pyFloatStr)
  let shape_1 := pyJoinSep ", " ((ellipsoid.shape.getD 1 []).map pyFloatStr)
  let shape_2 := pyJoinSep ", " ((ellipsoid.shape.getD 2 []).map pyFloatStr)
  let center := pyJoinSep ", " (ellipsoid.center.map pyFloatStr)
  let ellipsoid_lines :=
    "# Ellipsoidal refinement region defined on unity cube\n"
    ++ "# This minimum bounding ellipsoid has been obtained from\n"
    ++ "# particles within " ++ pyFloatStr ellipsoid.traceback_radius ++ " "
    ++ ellipsoid.radius_definition ++ " of the halo center\n"
    ++ "region = ellipsoid\n"
    ++ "region_ellipsoid_matrix[0] = " ++ shape_0 ++ "\n"
    ++ "region_ellipsoid_matrix[1] = " ++ shape_1 ++ "\n"
    ++ "region_ellipsoid_matrix[2] = " ++ shape_2 ++ "\n"
    ++ "region_ellipsoid_center    = " ++ center ++ "\n"
  let template2 := pyReplace template ("<ELLIPSOID_TEMPLATE>") ellipsoid_lines
  let config_header :=
    "# Zoom Initial Conditions for halo " ++ toString halo_id ++ " ("
    ++ halo_name ++ ") in simulation " ++ config.simulation_name ++ " ("
    ++ config.project_name ++ " project)\n"
    ++ "# Details on this halo can be found on https://cosmicweb.eu/simulation/"
    ++ config.simulation_name ++ "/halo/" ++ toString halo_id ++ "\n"
    ++ "# This file has been generated by CosmICweb @" ++ now ++ "\n\n\n"
  config_header ++ template2 ++ "\n"

/-- The ellipsoid-fetch loop at the top of `process_config`
(cosmICweb.py lines 292-302): one `fetch_ellipsoid` call per
`zip(config.halo_names, config.halo_urls)` entry, at URL
`url + "/ellipsoids"`.  An uncaught exception of any call aborts the whole
run (`Except.error`). -/
def fetchAllEllipsoids (responses : String → Nat → Response (List RawEllipsoid))
    (traceback_radius : Rat) (attempts : Nat) :
    List (String × String) → Except Unit (List (Option Ellipsoid))
  | [] => Except.ok []
  | nu :: rest =>
    match (fetch_ellipsoid (responses (nu.2 ++ "/ellipsoids"))
        traceback_radius attempts).outcome with
    | Except.error e => Except.error e
    | Except.ok o =>
      match fetchAllEllipsoids responses traceback_radius attempts rest with
      | Except.error e => Except.error e
      | Except.ok os => Except.ok (o :: os)

/-- `process_config(config, args, store)` (cosmICweb.py lines 291-342) in
the non-persisting mode (`store=False`, which skips the interactive editor
and returns the `(output_file, music_config)` pairs; the persisting mode
writes the same pairs to disk).  Each `datetime.now()` of the composing
loop is modelled by the injected `now`.  Halos whose ellipsoid is `None`
are skipped with a warning. -/
def process_config (responses : String → Nat → Response (List RawEllipsoid))
    (config : DownloadConfig) (args : Args) (now : String) :
    Except Unit (List (String × String)) :=
  match fetchAllEllipsoids responses config.traceback_radius args.attempts
      (config.halo_names.zip config.halo_urls) with
  | Except.error e => Except.error e
  | Except.ok ellipsoids =>
    let music_template := music_config_to_template config
    Except.ok ((config.halo_names.zip (config.halo_ids.zip ellipsoids)).filterMap
      (fun nie =>
        match nie.2.2 with
        | none => none
        | some ellipsoid =>
          let music_config :=
            compose_template music_template ellipsoid config nie.1 nie.2.1 now
          let output_file :=
            if args.common_directory ∧ ellipsoids.length > 1 then
              pathJoin (pathJoin args.output_path nie.1) ("ics.cfg")
            else
              pathJoin args.output_path ("ics_" ++ nie.1 ++ ".cfg")
          some (output_file, music_config)))

/-! ## Concrete payloads and configurations used by counterexamples and
witnesses -/

/-- `line` occurs in `s` as a full line that is neither the first nor the
last line of `s`: a newline immediately precedes and follows it. -/
def hasInnerLine (s line : String) : Prop :=
  ∃ x y, s.data = x ++ '\n' :: (line.data ++ '\n' :: y)

/-- Oracle for the C2 witness: one failed (HTTP error) attempt, then
success with an empty payload. -/
def wC2responses : Nat → Response (List RawEllipsoid) :=
  fun i => if i = 0 then Response.httpError else Response.success []

/-- Oracle for the C2 counterexample: a transport error on the first
attempt, then successes. -/
def cexC2responses : Nat → Response (List RawEllipsoid) :=
  fun i => if i = 0 then Response.transportError else Response.success []

/-- Demo ellipsoid with traceback radius 1. -/
def demoE1 : RawEllipsoid :=
  ⟨[0, 0, 0], [[1, 0, 0], [0, 1, 0], [0, 0, 1]], "Rvir", 1⟩

/-- Demo ellipsoid with traceback radius 2. -/
def demoE2 : RawEllipsoid :=
  ⟨[1, 0, 0], [[2, 0, 0], [0, 2, 0], [0, 0, 2]], "Rvir", 2⟩

/-- Demo ellipsoid with traceback radius 4. -/
def demoE4 : RawEllipsoid :=
  ⟨[0, 1, 0], [[4, 0, 0], [0, 4, 0], [0, 0, 4]], "Rvir", 4⟩

/-- Demo ellipsoid with traceback radius 10. -/
def demoE10 : RawEllipsoid :=
  ⟨[0, 0, 1], [[3, 0, 0], [0, 3, 0], [0, 0, 3]], "Rvir", 10⟩

/-- Demo payload with the four distinct radii 1, 2, 4, 10 named by the
claim. -/
def demoEllipsoids : List RawEllipsoid := [demoE1, demoE2, demoE4, demoE10]

/-- Concrete simulation object for the C8 witness. -/
def wSim : RawSimulation :=
  { name := "150MPC", project_name := "CosmOCA", api_url := "https://api.cosmicweb.eu"
    api_id := 3, api_token := "tok"
    ics := { setup := "boxlength = 150", random := "seed[9] = 74927"
             cosmology := "Omega_m = 0.309", poisson := "fft_fine = true" } }

/-- Concrete store payload for the C8 witness (two halos). -/
def wStore : RawStoreContent :=
  { simulation := wSim, halos := [7, 9], traceback_radius := 2
    configuration := none }

/-- Concrete publication payload for the C8 witness (one named halo, one
halo with a null name). -/
def wMulti : RawMultiContent :=
  { simulation := wSim
    halos := [{ id := 5, name := some "alpha" }, { id := 6, name := none }] }

/-- Ellipsoid payload used by the C4 runs. -/
def cexC4ell : RawEllipsoid :=
  ⟨[0, 0, 0], [[1, 0, 0], [0, 1, 0], [0, 0, 1]], "Rvir", 2⟩

/-- Two-halo configuration for the C4 runs. -/
def cexC4cfg : DownloadConfig :=
  { simulation_name := "sim", project_name := "proj"
    halo_names := ["halo_a", "halo_b"], halo_ids := [1, 2]
    halo_urls := ["uA", "uB"], traceback_radius := 2, api_token := "tok"
    MUSIC := { setup := "levelmin = 7", random := "s = 1"
               cosmology := "Om = 0.3", poisson := "f = true" }
    settings := none, accessed_at := "T0" }

/-- CLI arguments for the C4 runs: `common_directory` set, one attempt. -/
def cexC4args : Args :=
  { url := "https://cosmicweb.eu", output_path := "out"
    common_directory := true, attempts := 1 }

/-- Oracle for the C4 counterexample: the ellipsoid list of halo_a fails
(so that halo is skipped), halo_b succeeds. -/
def cexC4responses : String → Nat → Response (List RawEllipsoid) :=
  fun url _ =>
    if url = "uB/ellipsoids" then Response.success [cexC4ell]
    else Response.httpError

/-- Oracle for the C4 witness: every halo's ellipsoid fetch succeeds. -/
def wC4responses : String → Nat → Response (List RawEllipsoid) :=
  fun _ _ => Response.success [cexC4ell]

/-- The output pairs of the C4 witness run. -/
def wC4out : List (String × String) :=
  match process_config wC4responses cexC4cfg cexC4args "T0" with
  | Except.ok o => o
  | Except.error _ => []

/-- Settings block for the C6 witness. -/
def wC6settings : Configuration :=
  { outputType := "grafic2", resolution := { low := 8, high := 12 }
    outputOptions := [("ramses_ics", "yes")], startRedshift := 99
    outputFilename := "ics_ramses" }

/-- Download configuration for the C6 witness (settings present). -/
def wC6cfg : DownloadConfig :=
  { simulation_name := "150MPC", project_name := "CosmOCA"
    halo_names := ["halo_7"], halo_ids := [7], halo_urls := ["u7"]
    traceback_radius := 2, api_token := "tok"
    MUSIC := { setup := "levelmin = 7", random := "s = 1"
               cosmology := "Om = 0.3", poisson := "f = true" }
    settings := some wC6settings, accessed_at := "T0" }

/-- The C6 witness configuration with settings absent. -/
def wC6cfgNone : DownloadConfig := { wC6cfg with settings := none }

/-- Settings used by the C1 counterexample (resolution 8/12, redshift 99,
no output type). -/
def cexC1settings : Configuration :=
  { outputType := "", resolution := { low := 8, high := 12 }
    outputOptions := [], startRedshift := 99, outputFilename := "" }

/-- C1 counterexample configuration: the setup section spells the level
parameter without a space before `=`. -/
def cexC1cfg : DownloadConfig :=
  { simulation_name := "sim", project_name := "proj"
    halo_names := ["halo_1"], halo_ids := [1], halo_urls := ["u1"]
    traceback_radius := 2, api_token := "tok"
    MUSIC := { setup := "levelmin=7", random := "s = 1"
               cosmology := "Om = 0.3", poisson := "f = true" }
    settings := some cexC1settings, accessed_at := "T0" }

/-- Settings used by the C1 witness. -/
def wC1settings : Configuration :=
  { outputType := "grafic2", resolution := { low := 8, high := 12 }
    outputOptions := [], startRedshift := 99, outputFilename := "ics" }

/-- C1 witness configuration: the setup section carries all four
parameters in the conventional `name = value` form. -/
def wC1cfg : DownloadConfig :=
  { simulation_name := "150MPC", project_name := "CosmOCA"
    halo_names := ["halo_1"], halo_ids := [1], halo_urls := ["u1"]
    traceback_radius := 2, api_token := "tok"
    MUSIC := { setup := "boxlength = 150\nlevelmin = 7\nlevelmin_TF = 7\nlevelmax = 9\nzstart = 50"
               random := "s = 1", cosmology := "Om = 0.3"
               poisson := "f = true" }
    settings := some wC1settings, accessed_at := "T0" }

/-- Ellipsoid for the C5 runs. -/
def cexC5ell : Ellipsoid :=
  { center := [0, 0, 0], shape := [[1, 0, 0], [0, 1, 0], [0, 0, 1]]
    traceback_radius := 2, radius_definition := "Rvir" }

/-- Download configuration for the C5 runs. -/
def cexC5cfg : DownloadConfig :=
  { simulation_name := "150MPC", project_name := "CosmOCA"
    halo_names := ["halo_7"], halo_ids := [7], halo_urls := ["u7"]
    traceback_radius := 2, api_token := "tok"
    MUSIC := { setup := "levelmin = 7", random := "s = 1"
               cosmology := "Om = 0.3", poisson := "f = true" }
    settings := none, accessed_at := "T0" }

/-! ## General lemmas about the string primitives -/

theorem splitOnChar_ne_nil (c : Char) (s : List Char) : splitOnChar c s ≠ [] := by
  cases s with
  | nil => simp [splitOnChar]
  | cons x xs =>
    simp only [splitOnChar]
    split
    · simp
    · split <;> simp

theorem splitOnChar_cons_eq (c x : Char) (xs : List Char) (h : x = c) :
    splitOnChar c (x :: xs) = [] :: splitOnChar c xs := by
  simp [splitOnChar, h]

theorem splitOnChar_cons_ne (c x : Char) (xs : List Char) (h : ¬x = c)
    (r : List Char) (rs : List (List Char)) (hs : splitOnChar c xs = r :: rs) :
    splitOnChar c (x :: xs) = (x :: r) :: rs := by
  simp [splitOnChar, h, hs]

theorem splitOnChar_eq_single (c : Char) (s : List Char) (h : c ∉ s) :
    splitOnChar c s = [s] := by
  induction s with
  | nil => rfl
  | cons x xs ih =>
    simp only [List.mem_cons, not_or] at h
    have hx : ¬(x = c) := fun hc => h.1 hc.symm
    exact splitOnChar_cons_ne c x xs hx xs [] (ih h.2)

theorem splitOnChar_append_cons (c : Char) (x y : List Char) :
    splitOnChar c (x ++ c :: y) = splitOnChar c x ++ splitOnChar c y := by
  induction x with
  | nil => simp [splitOnChar]
  | cons a as ih =>
    rw [List.cons_append]
    by_cases h : a = c
    · rw [splitOnChar_cons_eq c a _ h, splitOnChar_cons_eq c a as h, ih,
        List.cons_append]
    · cases has : splitOnChar c as with
      | nil => exact absurd has (splitOnChar_ne_nil c as)
      | cons r rs =>
        have h2 : splitOnChar c (as ++ c :: y) = r :: (rs ++ splitOnChar c y) := by
          rw [ih, has]; rfl
        rw [splitOnChar_cons_ne c a _ h _ _ h2,
          splitOnChar_cons_ne c a as h r rs has, List.cons_append]

theorem joinSepL_splitOnChar (c : Char) (s : List Char) :
    joinSepL [c] (splitOnChar c s) = s := by
  induction s with
  | nil => rfl
  | cons x xs ih =>
    by_cases h : x = c
    · rw [splitOnChar_cons_eq c x xs h]
      cases hs : splitOnChar c xs with
      | nil => exact absurd hs (splitOnChar_ne_nil c xs)
      | cons r rs =>
        rw [hs] at ih
        have hj : joinSepL [c] ([] :: r :: rs) = [c] ++ joinSepL [c] (r :: rs) := by
          simp [joinSepL]
        rw [hj, ih, h]
        rfl
    · cases hs : splitOnChar c xs with
      | nil => exact absurd hs (splitOnChar_ne_nil c xs)
      | cons r rs =>
        rw [splitOnChar_cons_ne c x xs h r rs hs]
        rw [hs] at ih
        cases rs with
        | nil =>
          simp only [joinSepL] at ih ⊢
          rw [← ih]
        | cons r2 rs2 =>
          simp only [joinSepL] at ih ⊢
          rw [List.cons_append, List.cons_append, ih]

theorem splitOnChar_joinSepL (c : Char) (ls : List (List Char)) (hne : ls ≠ [])
    (h : ∀ l ∈ ls, c ∉ l) : splitOnChar c (joinSepL [c] ls) = ls := by
  induction ls with
  | nil => exact absurd rfl hne
  | cons l ls ih =>
    cases ls with
    | nil =>
      simp only [joinSepL]
      exact splitOnChar_eq_single c l (h l (by simp))
    | cons m ms =>
      have hj : joinSepL [c] (l :: m :: ms) = l ++ c :: joinSepL [c] (m :: ms) := by
        simp [joinSepL]
      rw [hj, splitOnChar_append_cons,
        splitOnChar_eq_single c l (h l (by simp)),
        ih (by simp) (fun x hx => h x (by simp [hx]))]
      rfl

theorem mem_splitOnChar_subset (c : Char) (s : List Char) :
    ∀ part ∈ splitOnChar c s, ∀ a ∈ part, a ∈ s := by
  induction s with
  | nil =>
    intro part hp a ha
    simp [splitOnChar] at hp
    subst hp
    simp at ha
  | cons x xs ih =>
    intro part hp a ha
    by_cases h : x = c
    · rw [splitOnChar_cons_eq c x xs h] at hp
      rcases List.mem_cons.mp hp with h1 | h2
      · subst h1; simp at ha
      · exact List.mem_cons_of_mem _ (ih part h2 a ha)
    · cases hs : splitOnChar c xs with
      | nil => exact absurd hs (splitOnChar_ne_nil c xs)
      | cons r rs =>
        rw [splitOnChar_cons_ne c x xs h r rs hs] at hp
        rcases List.mem_cons.mp hp with h1 | h2
        · subst h1
          rcases List.mem_cons.mp ha with h3 | h4
          · simp [h3]
          · exact List.mem_cons_of_mem _ (ih r (by rw [hs]; simp) a h4)
        · exact List.mem_cons_of_mem _ (ih part (by rw [hs]; simp [h2]) a ha)

theorem not_mem_of_mem_splitOnChar (c : Char) (s : List Char) :
    ∀ part ∈ splitOnChar c s, c ∉ part := by
  induction s with
  | nil =>
    intro part hp
    simp [splitOnChar] at hp
    subst hp
    simp
  | cons x xs ih =>
    intro part hp
    by_cases h : x = c
    · rw [splitOnChar_cons_eq c x xs h] at hp
      rcases List.mem_cons.mp hp with h1 | h2
      · subst h1; simp
      · exact ih part h2
    · cases hs : splitOnChar c xs with
      | nil => exact absurd hs (splitOnChar_ne_nil c xs)
      | cons r rs =>
        rw [splitOnChar_cons_ne c x xs h r rs hs] at hp
        rcases List.mem_cons.mp hp with h1 | h2
        · subst h1
          intro hmem
          rcases List.mem_cons.mp hmem with h3 | h4
          · exact h h3.symm
          · exact ih r (by rw [hs]; simp) h4
        · exact ih part (by rw [hs]; simp [h2])

theorem joinSepL_inner (c : Char) (u v : List (List Char)) (l : List Char)
    (hu : u ≠ []) (hv : v ≠ []) :
    ∃ x y, joinSepL [c] (u ++ l :: v) = x ++ c :: (l ++ c :: y) := by
  induction u with
  | nil => exact absurd rfl hu
  | cons a u ih =>
    cases u with
    | nil =>
      cases v with
      | nil => exact absurd rfl hv
      | cons b vs =>
        refine ⟨a, joinSepL [c] (b :: vs), ?_⟩
        simp [joinSepL]
    | cons a2 u2 =>
      obtain ⟨x, y, hxy⟩ := ih (by simp)
      refine ⟨a ++ c :: x, y, ?_⟩
      have : joinSepL [c] ((a :: a2 :: u2) ++ l :: v)
          = a ++ c :: joinSepL [c] ((a2 :: u2) ++ l :: v) := by
        simp [joinSepL]
      rw [this, hxy]
      simp

theorem splitOnChar_head (c : Char) (x y : List Char) (h : c ∉ x) :
    (splitOnChar c (x ++ c :: y)).head? = some x := by
  rw [splitOnChar_append_cons, splitOnChar_eq_single c x h]
  rfl

theorem splitOnChar_getLast (c : Char) (y : List Char) :
    (splitOnChar c (y ++ [c])).getLast? = some [] := by
  have h : y ++ [c] = y ++ c :: ([] : List Char) := rfl
  rw [h, splitOnChar_append_cons]
  exact List.getLast?_concat _

theorem mem_decomp_inner {α : Type} (l : List α) (a : α) (h : a ∈ l)
    (hh : l.head? ≠ some a) (hl : l.getLast? ≠ some a) :
    ∃ u v, l = u ++ a :: v ∧ u ≠ [] ∧ v ≠ [] := by
  obtain ⟨u, v, rfl⟩ := List.append_of_mem h
  refine ⟨u, v, rfl, ?_, ?_⟩
  · rintro rfl
    exact hh (by simp)
  · rintro rfl
    exact hl (List.getLast?_concat u)

/-! ## Lemmas about prefix testing, occurrence and replacement -/

theorem isPref_append_self (l t : List Char) : isPref l (l ++ t) = true := by
  induction l with
  | nil => rfl
  | cons a as ih => simp [isPref, ih]

theorem occursB_of_isPref (pat s : List Char) (h : isPref pat s = true) :
    occursB pat s = true := by
  cases s with
  | nil => exact h
  | cons c rest => simp [occursB, h]

theorem occursB_append_of_right (pat x y : List Char)
    (h : occursB pat y = true) : occursB pat (x ++ y) = true := by
  induction x with
  | nil => exact h
  | cons a as ih => simp [occursB, ih]

theorem isPref_append_ext (pat : List Char) :
    ∀ (s y : List Char), isPref pat s = true → isPref pat (s ++ y) = true := by
  induction pat with
  | nil => intro s y _; rfl
  | cons p ps ih =>
    intro s y h
    cases s with
    | nil => simp [isPref] at h
    | cons b bs =>
      simp only [isPref, Bool.and_eq_true] at h
      simp only [List.cons_append, isPref, Bool.and_eq_true]
      exact ⟨h.1, ih bs y h.2⟩

theorem occursB_append_of_left (pat : List Char) :
    ∀ (x y : List Char), occursB pat x = true → occursB pat (x ++ y) = true := by
  intro x
  induction x with
  | nil =>
    intro y h
    cases pat with
    | nil =>
      cases y with
      | nil => rfl
      | cons b bs => simp [occursB, isPref]
    | cons p ps => simp [occursB, isPref] at h
  | cons a as ih =>
    intro y h
    simp only [occursB, Bool.or_eq_true] at h
    rcases h with h | h
    · simp only [List.cons_append, occursB, Bool.or_eq_true]
      exact Or.inl (isPref_append_ext pat (a :: as) y h)
    · simp only [List.cons_append, occursB, Bool.or_eq_true]
      exact Or.inr (ih y h)

theorem replaceFrom_skip (p : Char) (ps rep : List Char) :
    ∀ (n : Nat) (s : List Char),
    replaceFrom p ps rep n s = replaceFrom p ps rep 0 (s.drop n) := by
  intro n
  induction n with
  | zero =>
    intro s
    rw [List.drop_zero]
  | succ n ih =>
    intro s
    cases s with
    | nil => rfl
    | cons c rest =>
      simp only [replaceFrom, List.drop_succ_cons]
      exact ih rest

theorem replaceFrom_no_occur (p : Char) (ps rep s : List Char)
    (h : occursB (p :: ps) s = false) : replaceFrom p ps rep 0 s = s := by
  induction s with
  | nil => rfl
  | cons c rest ih =>
    simp only [occursB, Bool.or_eq_false_iff] at h
    simp only [replaceFrom, h.1, Bool.false_eq_true, if_false]
    rw [ih h.2]

theorem replaceFrom_single (p : Char) (ps rep y : List Char)
    (hy : occursB (p :: ps) y = false) :
    ∀ x : List Char,
    (∀ i < x.length, isPref (p :: ps) (x.drop i ++ ((p :: ps) ++ y)) = false) →
    replaceFrom p ps rep 0 (x ++ ((p :: ps) ++ y)) = x ++ (rep ++ y) := by
  intro x
  induction x with
  | nil =>
    intro _
    rw [List.nil_append, List.nil_append]
    have hpos : isPref (p :: ps) (p :: (ps ++ y)) = true :=
      isPref_append_self (p :: ps) y
    simp only [List.cons_append, replaceFrom, List.append_eq, hpos, if_true]
    rw [replaceFrom_skip, List.drop_left, replaceFrom_no_occur p ps rep y hy]
  | cons a as ih =>
    intro hx
    have h0 : isPref (p :: ps) (a :: (as ++ p :: (ps ++ y))) = false := by
      have h00 := hx 0 (by simp)
      simpa using h00
    rw [List.cons_append]
    simp only [replaceFrom]
    rw [if_neg (by simp [h0]),
      ih (fun i hi => by
        have := hx (i + 1) (by simp only [List.length_cons]; omega)
        simpa using this)]
    rw [List.cons_append]

/-! ## Lemmas about stripping -/

theorem dropWhile_append_of_ne_nil {α : Type} (p : α → Bool) (l1 l2 : List α)
    (h : l1.dropWhile p ≠ []) :
    (l1 ++ l2).dropWhile p = l1.dropWhile p ++ l2 := by
  induction l1 with
  | nil => simp at h
  | cons a l ih =>
    by_cases hp : p a
    · simp only [List.dropWhile_cons, if_pos hp] at h ⊢
      simpa [hp] using ih h
    · simp [List.dropWhile_cons, hp]

theorem dropWhile_append_of_all {α : Type} (p : α → Bool) (l1 l2 : List α)
    (h : ∀ a ∈ l1, p a = true) :
    (l1 ++ l2).dropWhile p = l2.dropWhile p := by
  induction l1 with
  | nil => simp
  | cons a l ih =>
    have ha : p a = true := h a (by simp)
    simpa [List.dropWhile_cons, ha] using ih (fun x hx => h x (by simp [hx]))

theorem rstripL_append_space (x w : List Char)
    (h : ∀ a ∈ w, isPySpace a = true) : rstripL (x ++ w) = rstripL x := by
  unfold rstripL
  rw [List.reverse_append, dropWhile_append_of_all _ _ _
    (fun a ha => h a (List.mem_reverse.mp ha))]

theorem rstripL_of_last (y : List Char) (ch : Char) (h : isPySpace ch = false) :
    rstripL (y ++ [ch]) = y ++ [ch] := by
  unfold rstripL
  rw [List.reverse_append]
  simp [List.dropWhile_cons, h]

theorem rstripL_append_left (a b : List Char) (h : rstripL b ≠ []) :
    rstripL (a ++ b) = a ++ rstripL b := by
  unfold rstripL at h ⊢
  have hd : b.reverse.dropWhile isPySpace ≠ [] := by
    intro hnil
    exact h (by rw [hnil]; rfl)
  rw [List.reverse_append, dropWhile_append_of_ne_nil _ _ _ hd, List.reverse_append,
    List.reverse_reverse]

theorem lstripL_append_left (a b : List Char) (h : lstripL a ≠ []) :
    lstripL (a ++ b) = lstripL a ++ b := by
  unfold lstripL at h ⊢
  exact dropWhile_append_of_ne_nil _ _ _ h

theorem rstripL_ne_nil_of_mem (l : List Char) (a : Char) (ha : a ∈ l)
    (hns : isPySpace a = false) : rstripL l ≠ [] := by
  intro hnil
  unfold rstripL at hnil
  have hdrop : l.reverse.dropWhile isPySpace = [] := by
    cases hd : l.reverse.dropWhile isPySpace with
    | nil => rfl
    | cons x xs => rw [hd] at hnil; simp at hnil
  have hall := List.dropWhile_eq_nil_iff.mp hdrop
  have := hall a (List.mem_reverse.mpr ha)
  rw [hns] at this
  exact Bool.false_ne_true this

theorem exists_concat_of_getLast {α : Type} :
    ∀ (l : List α) (a : α), l.getLast? = some a → ∃ y, l = y ++ [a]
  | [], a => by intro h; simp at h
  | [b], a => by
    intro h
    simp only [List.getLast?_singleton, Option.some.injEq] at h
    exact ⟨[], by rw [h]; rfl⟩
  | b :: c :: t, a => by
    intro h
    have h2 : (c :: t).getLast? = some a := by
      rw [← h]
      rfl
    obtain ⟨y, hy⟩ := exists_concat_of_getLast (c :: t) a h2
    exact ⟨b :: y, by rw [List.cons_append, ← hy]⟩

/-! ## Lemmas about lookup and indexing -/

theorem lookup_mem_values {α β : Type} [BEq α] (l : List (α × β)) (k : α) (v : β)
    (h : l.lookup k = some v) : v ∈ l.map Prod.snd := by
  induction l with
  | nil => simp [List.lookup] at h
  | cons a l ih =>
    rcases a with ⟨a1, a2⟩
    simp only [List.lookup] at h
    cases hk : (k == a1) with
    | true =>
      rw [hk] at h
      simp only [Option.some.injEq] at h
      simp [← h]
    | false =>
      rw [hk] at h
      simp only [] at h
      simp [ih h]

/-- Positional indexing with a default, as a total function. -/
def nthD {α : Type} : List α → Nat → α → α
  | [], _, d => d
  | a :: _, 0, _ => a
  | _ :: l, n + 1, d => nthD l n d

theorem nthD_map {α β : Type} (f : α → β) :
    ∀ (l : List α) (i : Nat) (d : α), nthD (l.map f) i (f d) = f (nthD l i d)
  | [], _, _ => rfl
  | _ :: _, 0, _ => rfl
  | _ :: l, n + 1, d => nthD_map f l n d

/-! ## Lemmas about the retry loop -/

theorem fetchLoop_requests_le (responses : Nat → Response (List RawEllipsoid)) :
    ∀ (n i : Nat), (fetchLoop responses i n).requests ≤ n := by
  intro n
  induction n with
  | zero => intro i; simp [fetchLoop]
  | succ n ih =>
    intro i
    simp only [fetchLoop]
    cases responses i with
    | success content => simp
    | httpError =>
      have := ih (i + 1)
      simp
      omega
    | transportError => simp

theorem fetchLoop_all_http (responses : Nat → Response (List RawEllipsoid))
    (n : Nat) : ∀ (i : Nat), (∀ j < n, responses (i + j) = Response.httpError) →
    fetchLoop responses i n = ⟨Except.ok [], n, n⟩ := by
  induction n with
  | zero => intro i _; rfl
  | succ n ih =>
    intro i h
    have h0 : responses i = Response.httpError := by simpa using h 0 (by omega)
    simp only [fetchLoop, h0]
    rw [ih (i + 1) (fun j hj => by
      have := h (j + 1) (by omega)
      rwa [show i + (j + 1) = i + 1 + j by omega] at this)]

theorem fetchLoop_success (responses : Nat → Response (List RawEllipsoid))
    (l : List RawEllipsoid) (k : Nat) :
    ∀ (n i : Nat), k < n → (∀ j < k, responses (i + j) = Response.httpError) →
    responses (i + k) = Response.success l →
    fetchLoop responses i n = ⟨Except.ok (l.map parseEllipsoid), k + 1, k⟩ := by
  induction k with
  | zero =>
    intro n i hk _ hs
    cases n with
    | zero => omega
    | succ n =>
      simp only [fetchLoop]
      rw [show i + 0 = i from rfl] at hs
      rw [hs]
  | succ k ih =>
    intro n i hk hfail hs
    cases n with
    | zero => omega
    | succ n =>
      have h0 : responses i = Response.httpError := by simpa using hfail 0 (by omega)
      simp only [fetchLoop, h0]
      rw [ih n (i + 1) (by omega)
        (fun j hj => by
          have := hfail (j + 1) (by omega)
          rwa [show i + (j + 1) = i + 1 + j by omega] at this)
        (by rwa [show i + (k + 1) = i + 1 + k by omega] at hs)]

theorem fetchLoop_transport (responses : Nat → Response (List RawEllipsoid))
    (k : Nat) :
    ∀ (n i : Nat), k < n → (∀ j < k, responses (i + j) = Response.httpError) →
    responses (i + k) = Response.transportError →
    fetchLoop responses i n = ⟨Except.error (), k + 1, k⟩ := by
  induction k with
  | zero =>
    intro n i hk _ hs
    cases n with
    | zero => omega
    | succ n =>
      simp only [fetchLoop]
      rw [show i + 0 = i from rfl] at hs
      rw [hs]
  | succ k ih =>
    intro n i hk hfail hs
    cases n with
    | zero => omega
    | succ n =>
      have h0 : responses i = Response.httpError := by simpa using hfail 0 (by omega)
      simp only [fetchLoop, h0]
      rw [ih n (i + 1) (by omega)
        (fun j hj => by
          have := hfail (j + 1) (by omega)
          rwa [show i + (j + 1) = i + 1 + j by omega] at this)
        (by rwa [show i + (k + 1) = i + 1 + k by omega] at hs)]

theorem find?_append_of_none {α : Type} (p : α → Bool) (u l : List α)
    (h : ∀ x ∈ u, p x = false) : List.find? p (u ++ l) = List.find? p l := by
  induction u with
  | nil => rfl
  | cons a u ih =>
    have ha : p a = false := h a (by simp)
    simp only [List.cons_append, List.find?_cons, ha]
    exact ih (fun x hx => h x (by simp [hx]))

theorem data_append (a b : String) : (a ++ b).data = a.data ++ b.data := rfl

/-! ## Claim C6: the output section of the composed draft -/

theorem outputBlock_data (s : Configuration) :
    (outputBlock s).data = ("[output]\nformat = ").data
      ++ rstripL (s.outputType.data ++ (("\nfilename = ").data
        ++ (s.outputFilename.data ++ ("\n            ").data))) := by
  have hx : ("\n[output]\nformat = " ++ s.outputType ++ "\nfilename = "
      ++ s.outputFilename ++ "\n            ").data
      = ("\n[output]\nformat = ").data ++ (s.outputType.data
        ++ (("\nfilename = ").data ++ (s.outputFilename.data
          ++ ("\n            ").data))) := by
    simp [data_append, List.append_assoc]
  have hmemf : 'f' ∈ s.outputType.data ++ (("\nfilename = ").data
      ++ (s.outputFilename.data ++ ("\n            ").data)) := by
    refine List.mem_append.mpr (Or.inr (List.mem_append.mpr (Or.inl ?_)))
    decide
  show stripL (("\n[output]\nformat = " ++ s.outputType ++ "\nfilename = "
      ++ s.outputFilename ++ "\n            ").data) = _
  rw [hx]
  unfold stripL
  rw [lstripL_append_left _ _ (by decide),
    show lstripL (("\n[output]\nformat = ").data)
      = ("[output]\nformat = ").data from by decide,
    rstripL_append_left _ _ (rstripL_ne_nil_of_mem _ 'f' hmemf rfl)]

theorem outputBlock_resolved (s : Configuration) (ch : Char)
    (hlast : s.outputFilename.data.getLast? = some ch)
    (hns : isPySpace ch = false) :
    outputBlock s = "[output]\nformat = " ++ s.outputType
      ++ "\nfilename = " ++ s.outputFilename := by
  apply String.ext
  rw [outputBlock_data]
  obtain ⟨y, hy⟩ := exists_concat_of_getLast _ _ hlast
  have hW : ∀ a ∈ ("\n            ").data, isPySpace a = true := by decide
  have hfW : rstripL (s.outputFilename.data ++ ("\n            ").data)
      = s.outputFilename.data := by
    rw [rstripL_append_space _ _ hW, hy, rstripL_of_last y ch hns, ← hy]
  have hFfW : rstripL (("\nfilename = ").data
      ++ (s.outputFilename.data ++ ("\n            ").data))
      = ("\nfilename = ").data ++ s.outputFilename.data := by
    rw [rstripL_append_left _ _ (by rw [hfW, hy]; simp), hfW]
  have htail : rstripL (s.outputType.data ++ (("\nfilename = ").data
      ++ (s.outputFilename.data ++ ("\n            ").data)))
      = s.outputType.data ++ (("\nfilename = ").data
        ++ s.outputFilename.data) := by
    rw [rstripL_append_left _ _ (by rw [hFfW]; simp), hFfW]
  rw [htail]
  simp [data_append, List.append_assoc]

/-- C6: the composed draft always ends in an `[output]` section: with
settings absent the stub `[output]\n# TODO: add output options` follows
the raw body; with settings present but an empty (falsy) `outputType` the
stub follows the parameter-substituted body; with a non-empty `outputType`
a `format`/`filename` block followed by every `outputOptions` entry as
`key = value` is appended instead, and (whenever `outputFilename` does not
end in whitespace, which the triple-quoted literal would strip) that block
is exactly `[output]\nformat = {type}\nfilename = {filename}`; in every
case the literal `[output]` occurs in the draft. -/
theorem music_template_output_section (config : DownloadConfig) :
    (config.settings = none →
      music_config_to_template config
        = musicBody config ++ "[output]\n# TODO: add output options")
    ∧ (∀ s, config.settings = some s → s.outputType = "" →
      music_config_to_template config
        = apply_config_parameter (musicBody config) (paramsOf s)
          ++ "[output]\n# TODO: add output options")
    ∧ (∀ s, config.settings = some s → s.outputType ≠ "" →
      music_config_to_template config
        = apply_config_parameter (musicBody config) (paramsOf s)
          ++ outputBlock s ++ "\n" ++ outputOptionsText s)
    ∧ (∀ s ch, s.outputFilename.data.getLast? = some ch →
        isPySpace ch = false →
      outputBlock s = "[output]\nformat = " ++ s.outputType
        ++ "\nfilename = " ++ s.outputFilename)
    ∧ occursB ("[output]").data (music_config_to_template config).data
        = true := by
  refine ⟨?_, ?_, ?_, ?_, ?_⟩
  · intro h
    simp [music_config_to_template, h]
  · intro s hs ht
    simp [music_config_to_template, hs, ht]
  · intro s hs ht
    simp [music_config_to_template, hs, ht]
  · intro s ch h1 h2
    exact outputBlock_resolved s ch h1 h2
  · cases hset : config.settings with
    | none =>
      have hdraft : music_config_to_template config
          = musicBody config ++ "[output]\n# TODO: add output options" := by
        simp [music_config_to_template, hset]
      rw [hdraft, data_append]
      exact occursB_append_of_right _ _ _ (by decide)
    | some s =>
      by_cases ht : s.outputType = ""
      · have hdraft : music_config_to_template config
            = apply_config_parameter (musicBody config) (paramsOf s)
              ++ "[output]\n# TODO: add output options" := by
          simp [music_config_to_template, hset, ht]
        rw [hdraft, data_append]
        exact occursB_append_of_right _ _ _ (by decide)
      · have hdraft : music_config_to_template config
            = apply_config_parameter (musicBody config) (paramsOf s)
              ++ outputBlock s ++ "\n" ++ outputOptionsText s := by
          simp [music_config_to_template, hset, ht]
        rw [hdraft, data_append, data_append, data_append]
        have hB : occursB ("[output]").data (outputBlock s).data = true := by
          rw [outputBlock_data]
          apply occursB_of_isPref
          rw [show ("[output]\nformat = ").data
            = ("[output]").data ++ ("\nformat = ").data from by decide,
            List.append_assoc]
          exact isPref_append_self _ _
        apply occursB_append_of_left
        apply occursB_append_of_left
        exact occursB_append_of_right _ _ _ hB

/-- Witness for C6 at concrete configurations covering the
settings-present (non-empty output type) and settings-absent cases. -/
theorem music_template_output_section_witness :
    wC6cfg.settings = some wC6settings
    ∧ wC6settings.outputType ≠ ""
    ∧ wC6settings.outputFilename.data.getLast? = some 's'
    ∧ isPySpace 's' = false
    ∧ wC6cfgNone.settings = none
    ∧ (music_config_to_template wC6cfg
        = apply_config_parameter (musicBody wC6cfg) (paramsOf wC6settings)
          ++ outputBlock wC6settings ++ "\n" ++ outputOptionsText wC6settings)
    ∧ (outputBlock wC6settings = "[output]\nformat = "
        ++ wC6settings.outputType ++ "\nfilename = "
        ++ wC6settings.outputFilename)
    ∧ occursB ("[output]").data (music_config_to_template wC6cfg).data = true
    ∧ (music_config_to_template wC6cfgNone
        = musicBody wC6cfgNone ++ "[output]\n# TODO: add output options") :=
  ⟨rfl, by decide, by decide, rfl, rfl,
   (music_template_output_section wC6cfg).2.2.1 wC6settings rfl (by decide),
   (music_template_output_section wC6cfg).2.2.2.1 wC6settings 's' (by decide)
     rfl,
   (music_template_output_section wC6cfg).2.2.2.2,
   (music_template_output_section wC6cfgNone).1 rfl⟩

/-! ## Claim C2: retry policy of fetch_ellipsoids -/

/-- C2 (amended): for every response oracle, `fetch_ellipsoids` issues at
most `attempts` requests; a non-2xx HTTP response of an attempt logs one
warning and the next attempt follows immediately, so `k = attempts` failed
attempts exhaust the loop and return the empty list (with `attempts`
requests and warnings); a success at attempt `k` short-circuits the loop
with `k + 1` requests, returning the parsed list; a transport error is
*not* caught: the exception propagates after `k + 1` requests (the claim
asserted that transport errors are also retried — they are not). -/
theorem fetch_ellipsoids_retry_policy
    (responses : Nat → Response (List RawEllipsoid)) (attempts k : Nat)
    (l : List RawEllipsoid)
    (hfail : ∀ j < k, responses j = Response.httpError) :
    (fetch_ellipsoids responses attempts).requests ≤ attempts
    ∧ (k = attempts →
        fetch_ellipsoids responses attempts = ⟨Except.ok [], attempts, attempts⟩)
    ∧ (k < attempts → responses k = Response.success l →
        fetch_ellipsoids responses attempts
          = ⟨Except.ok (l.map parseEllipsoid), k + 1, k⟩)
    ∧ (k < attempts → responses k = Response.transportError →
        fetch_ellipsoids responses attempts = ⟨Except.error (), k + 1, k⟩) := by
  refine ⟨fetchLoop_requests_le responses attempts 0, ?_, ?_, ?_⟩
  · rintro rfl
    exact fetchLoop_all_http responses k 0
      (fun j hj => by simpa using hfail j hj)
  · intro hk hs
    exact fetchLoop_success responses l k attempts 0 hk
      (fun j hj => by simpa using hfail j hj) (by simpa using hs)
  · intro hk ht
    exact fetchLoop_transport responses k attempts 0 hk
      (fun j hj => by simpa using hfail j hj) (by simpa using ht)

/-- Witness for C2 at a concrete oracle: attempt 0 fails with an HTTP
error, attempt 1 succeeds, `attempts = 3`. -/
theorem fetch_ellipsoids_retry_policy_witness :
    (∀ j < 1, wC2responses j = Response.httpError)
    ∧ ((fetch_ellipsoids wC2responses 3).requests ≤ 3
      ∧ (1 = 3 → fetch_ellipsoids wC2responses 3 = ⟨Except.ok [], 3, 3⟩)
      ∧ (1 < 3 → wC2responses 1 = Response.success [] →
          fetch_ellipsoids wC2responses 3
            = ⟨Except.ok (List.map parseEllipsoid []), 1 + 1, 1⟩)
      ∧ (1 < 3 → wC2responses 1 = Response.transportError →
          fetch_ellipsoids wC2responses 3 = ⟨Except.error (), 1 + 1, 1⟩)) :=
  ⟨by decide, fetch_ellipsoids_retry_policy wC2responses 3 1 [] (by decide)⟩

/-- C2 counterexample: with `attempts = 2` and a transport error on
attempt 0, the exception propagates after a single request with no warning
logged — the claim instead demands a warning, an immediate retry (2
requests) and the successful result `[]` of attempt 1. -/
theorem fetch_ellipsoids_transport_error_not_retried :
    fetch_ellipsoids cexC2responses 2 = ⟨Except.error (), 1, 0⟩
    ∧ (fetch_ellipsoids cexC2responses 2).outcome ≠ Except.ok []
    ∧ (fetch_ellipsoids cexC2responses 2).requests ≠ 2
    ∧ (fetch_ellipsoids cexC2responses 2).warnings = 0 :=
  ⟨rfl, by decide, by decide, rfl⟩

/-! ## Claim C3: exact-match ellipsoid resolution -/

/-- C3: when the list fetch succeeds (success on the first attempt), the
returned value is the `find?` of the requested radius over the parsed
list; spelled out, it is the first element whose `traceback_radius` is
*exactly* equal to the request, any returned element matches exactly and
comes from the list, a fetch that fails all attempts yields `none`, and on
the radii {1,2,4,10} requesting 2 returns the radius-2 element while
requesting 5 returns `none`. -/
theorem fetch_ellipsoid_first_exact_match
    (responses : Nat → Response (List RawEllipsoid)) (l : List RawEllipsoid)
    (r : Rat) (attempts : Nat)
    (h0 : responses 0 = Response.success l) (hpos : 0 < attempts) :
    (fetch_ellipsoid responses r attempts).outcome
      = Except.ok (if (l.map parseEllipsoid).isEmpty then none
          else (l.map parseEllipsoid).find? (fun e => e.traceback_radius == r))
    ∧ (∀ u e v, l.map parseEllipsoid = u ++ e :: v →
        (∀ x ∈ u, x.traceback_radius ≠ r) → e.traceback_radius = r →
        (fetch_ellipsoid responses r attempts).outcome = Except.ok (some e))
    ∧ (∀ e, (fetch_ellipsoid responses r attempts).outcome
          = Except.ok (some e) →
        e.traceback_radius = r ∧ e ∈ l.map parseEllipsoid)
    ∧ (∀ responses2 : Nat → Response (List RawEllipsoid),
        (∀ i, responses2 i = Response.httpError) →
        (fetch_ellipsoid responses2 r attempts).outcome = Except.ok none)
    ∧ (fetch_ellipsoid (fun _ => Response.success demoEllipsoids) 2 3).outcome
        = Except.ok (some (parseEllipsoid demoE2))
    ∧ (fetch_ellipsoid (fun _ => Response.success demoEllipsoids) 5 3).outcome
        = Except.ok none := by
  have htr : fetch_ellipsoids responses attempts
      = ⟨Except.ok (l.map parseEllipsoid), 0 + 1, 0⟩ :=
    fetchLoop_success responses l 0 attempts 0 hpos (by omega) (by simpa using h0)
  have hout : (fetch_ellipsoid responses r attempts).outcome
      = Except.ok (if (l.map parseEllipsoid).isEmpty then none
          else (l.map parseEllipsoid).find? (fun e => e.traceback_radius == r)) := by
    simp [fetch_ellipsoid, htr, Except.map]
  refine ⟨hout, ?_, ?_, ?_, by decide, by decide⟩
  · intro u e v hdec hu he
    rw [hout, hdec]
    have hne : ((u ++ e :: v).isEmpty) = false := by
      cases u <;> rfl
    rw [hne, if_neg (by simp)]
    rw [find?_append_of_none _ u _ (fun x hx => by
      simp [hu x hx])]
    rw [List.find?_cons_of_pos _ (by simp [he])]
  · intro e he
    rw [hout] at he
    by_cases hemp : (l.map parseEllipsoid).isEmpty
    · rw [if_pos hemp] at he
      simp at he
    · rw [if_neg hemp] at he
      simp only [Except.ok.injEq] at he
      have hfind := List.find?_some he
      have hmem := List.mem_of_find?_eq_some he
      exact ⟨by simpa using hfind, hmem⟩
  · intro responses2 hall
    have htr2 : fetch_ellipsoids responses2 attempts
        = ⟨Except.ok [], attempts, attempts⟩ :=
      fetchLoop_all_http responses2 attempts 0 (fun j _ => hall (0 + j))
    simp [fetch_ellipsoid, htr2, Except.map]

/-- Witness for C3 at a concrete oracle: first attempt succeeds with the
demo list, requesting radius 4. -/
theorem fetch_ellipsoid_first_exact_match_witness :
    ((fun _ : Nat => Response.success demoEllipsoids) 0
        = Response.success demoEllipsoids)
    ∧ ((fetch_ellipsoid (fun _ => Response.success demoEllipsoids) 4 3).outcome
        = Except.ok (if (demoEllipsoids.map parseEllipsoid).isEmpty then none
            else (demoEllipsoids.map parseEllipsoid).find?
              (fun e => e.traceback_radius == 4))
      ∧ (∀ u e v, demoEllipsoids.map parseEllipsoid = u ++ e :: v →
          (∀ x ∈ u, x.traceback_radius ≠ 4) → e.traceback_radius = 4 →
          (fetch_ellipsoid (fun _ => Response.success demoEllipsoids) 4 3).outcome
            = Except.ok (some e))
      ∧ (∀ e, (fetch_ellipsoid (fun _ => Response.success demoEllipsoids) 4 3).outcome
            = Except.ok (some e) →
          e.traceback_radius = 4 ∧ e ∈ demoEllipsoids.map parseEllipsoid)
      ∧ (∀ responses2 : Nat → Response (List RawEllipsoid),
          (∀ i, responses2 i = Response.httpError) →
          (fetch_ellipsoid responses2 4 3).outcome = Except.ok none)
      ∧ (fetch_ellipsoid (fun _ => Response.success demoEllipsoids) 2 3).outcome
          = Except.ok (some (parseEllipsoid demoE2))
      ∧ (fetch_ellipsoid (fun _ => Response.success demoEllipsoids) 5 3).outcome
          = Except.ok none) :=
  ⟨rfl, fetch_ellipsoid_first_exact_match
    (fun _ => Response.success demoEllipsoids) demoEllipsoids 4 3 rfl
    (by decide)⟩

/-! ## Claim C7: fatal handling of the primary bundle fetch -/

/-- C7: a non-2xx response to the primary bundle request makes
`fetch_downloadstore` (and both branches of `fetch_multiple`) log two
critical lines and exit with status 1, after exactly one request — no
retry, no recovery. -/
theorem fatal_bundle_fetch_exits
    (response1 : String → Response RawStoreContent)
    (response2 : String → Response RawMultiContent)
    (base target pub coll now : String) (tbr : Rat)
    (h1 : response1 (base ++ "/api/music/store/" ++ target)
        = Response.httpError)
    (hpub : pub ≠ "")
    (h2 : response2 (base ++ "/api/publications/" ++ pub)
        = Response.httpError)
    (hcoll : coll ≠ "")
    (h3 : response2 (base ++ "/api/collections/" ++ coll)
        = Response.httpError) :
    fetch_downloadstore response1 base target now = ⟨ProcResult.exited 1, 1, 2⟩
    ∧ fetch_multiple response2 base tbr (some pub) none now
        = ⟨ProcResult.exited 1, 1, 2⟩
    ∧ fetch_multiple response2 base tbr none (some coll) now
        = ⟨ProcResult.exited 1, 1, 2⟩ := by
  refine ⟨?_, ?_, ?_⟩
  · unfold fetch_downloadstore
    rw [h1]
  · have ht : strTruthy (some pub) = true := by simp [strTruthy, hpub]
    simp only [fetch_multiple, ht, if_true, Option.getD_some]
    unfold fetchMultipleFrom
    rw [h2]
  · have ht : strTruthy (some coll) = true := by simp [strTruthy, hcoll]
    have h0 : strTruthy (none : Option String) = false := rfl
    simp only [fetch_multiple, h0, Bool.false_eq_true, if_false, ht, if_true,
      Option.getD_some]
    unfold fetchMultipleFrom
    rw [h3]

/-- Witness for C7 at concrete oracles that answer every request with a
non-2xx status. -/
theorem fatal_bundle_fetch_exits_witness :
    ((fun _ : String => (Response.httpError : Response RawStoreContent))
        ("https://cosmicweb.eu" ++ "/api/music/store/" ++ "t1")
      = Response.httpError)
    ∧ ("agora-halos" : String) ≠ ""
    ∧ (fetch_downloadstore (fun _ => Response.httpError) "https://cosmicweb.eu"
          "t1" "T0" = ⟨ProcResult.exited 1, 1, 2⟩
      ∧ fetch_multiple (fun _ => Response.httpError) "https://cosmicweb.eu" 2
          (some "agora-halos") none "T0" = ⟨ProcResult.exited 1, 1, 2⟩
      ∧ fetch_multiple (fun _ => Response.httpError) "https://cosmicweb.eu" 2
          none (some "c0ffee") "T0" = ⟨ProcResult.exited 1, 1, 2⟩) :=
  ⟨rfl, by decide, fatal_bundle_fetch_exits (fun _ => Response.httpError)
    (fun _ => Response.httpError) "https://cosmicweb.eu" "t1" "agora-halos"
    "c0ffee" "T0" 2 rfl (by decide) rfl (by decide) rfl⟩

/-! ## Claim C9: input validation of fetch_multiple -/

/-- C9: with neither a truthy publication name nor a truthy collection
uuid, `fetch_multiple` raises `ValueError` having issued zero HTTP
requests (validation happens before any network activity). -/
theorem fetch_multiple_validates_before_network
    (response : String → Response RawMultiContent) (cosmicweb_url : String)
    (traceback_radius : Rat) (publication_name collection_uuid : Option String)
    (now : String)
    (hp : strTruthy publication_name = false)
    (hc : strTruthy collection_uuid = false) :
    fetch_multiple response cosmicweb_url traceback_radius publication_name
      collection_uuid now = ⟨ProcResult.valueError, 0, 0⟩ := by
  simp [fetch_multiple, hp, hc]

/-- Witness for C9: both arguments absent (`None`), arbitrary oracle. -/
theorem fetch_multiple_validates_before_network_witness :
    strTruthy none = false ∧ strTruthy none = false
    ∧ fetch_multiple (fun _ => Response.httpError) "https://cosmicweb.eu" 2
        none none "T0" = ⟨ProcResult.valueError, 0, 0⟩ :=
  ⟨rfl, rfl, fetch_multiple_validates_before_network
    (fun _ => Response.httpError) "https://cosmicweb.eu" 2 none none "T0"
    rfl rfl⟩

/-! ## Claim C8: positional alignment of the constructed DownloadConfig -/

/-- C8: every `DownloadConfig` built by a successful `fetch_downloadstore`
or `fetch_multiple` call has `halo_names`, `halo_ids`, `halo_urls` of
equal length, with index `i` referring to the same source halo in all
three sequences; the single-target path synthesizes each name as
`"halo_" + id` and the publication path falls back from a null
server-supplied name to the stringified id. -/
theorem downloadconfig_positionally_aligned
    (response1 : String → Response RawStoreContent)
    (response2 : String → Response RawMultiContent)
    (base target pub now : String) (tbr : Rat)
    (c1 : RawStoreContent) (c2 : RawMultiContent)
    (h1 : response1 (base ++ "/api/music/store/" ++ target)
        = Response.success c1)
    (hpub : pub ≠ "")
    (h2 : response2 (base ++ "/api/publications/" ++ pub)
        = Response.success c2) :
    (∃ cfg, fetch_downloadstore response1 base target now
        = ⟨ProcResult.ok cfg, 1, 0⟩
      ∧ cfg.halo_names.length = cfg.halo_ids.length
      ∧ cfg.halo_ids.length = cfg.halo_urls.length
      ∧ cfg.halo_ids = c1.halos
      ∧ (∀ i d, nthD cfg.halo_names i ("halo_" ++ toString d)
          = "halo_" ++ toString (nthD c1.halos i d))
      ∧ (∀ i d, nthD cfg.halo_urls i
            (c1.simulation.api_url ++ "/simulation/"
              ++ toString c1.simulation.api_id ++ "/halo/" ++ toString d)
          = c1.simulation.api_url ++ "/simulation/"
            ++ toString c1.simulation.api_id ++ "/halo/"
            ++ toString (nthD c1.halos i d)))
    ∧ (∃ cfg, fetch_multiple response2 base tbr (some pub) none now
        = ⟨ProcResult.ok cfg, 1, 0⟩
      ∧ cfg.halo_names.length = cfg.halo_ids.length
      ∧ cfg.halo_ids.length = cfg.halo_urls.length
      ∧ (∀ i d, nthD cfg.halo_names i (d.name.getD (toString d.id))
          = (nthD c2.halos i d).name.getD (toString (nthD c2.halos i d).id))
      ∧ (∀ i d, nthD cfg.halo_ids i d.id = (nthD c2.halos i d).id)
      ∧ (∀ i d, nthD cfg.halo_urls i
            (c2.simulation.api_url ++ "/simulation/"
              ++ toString c2.simulation.api_id ++ "/halo/" ++ toString d.id)
          = c2.simulation.api_url ++ "/simulation/"
            ++ toString c2.simulation.api_id ++ "/halo/"
            ++ toString (nthD c2.halos i d).id)) := by
  constructor
  · unfold fetch_downloadstore
    rw [h1]
    refine ⟨_, rfl, by simp, by simp, rfl, ?_, ?_⟩
    · intro i d
      exact nthD_map (fun h => "halo_" ++ toString h) c1.halos i d
    · intro i d
      exact nthD_map (fun h => c1.simulation.api_url ++ "/simulation/"
        ++ toString c1.simulation.api_id ++ "/halo/" ++ toString h) c1.halos i d
  · have ht : strTruthy (some pub) = true := by simp [strTruthy, hpub]
    simp only [fetch_multiple, ht, if_true, Option.getD_some]
    unfold fetchMultipleFrom
    rw [h2]
    refine ⟨_, rfl, by simp, by simp, ?_, ?_, ?_⟩
    · intro i d
      exact nthD_map (fun h => h.name.getD (toString h.id)) c2.halos i d
    · intro i d
      exact nthD_map (fun h => h.id) c2.halos i d
    · intro i d
      exact nthD_map (fun h => c2.simulation.api_url ++ "/simulation/"
        ++ toString c2.simulation.api_id ++ "/halo/" ++ toString h.id)
        c2.halos i d

/-- Witness for C8 at concrete oracles returning `wStore` and `wMulti`. -/
theorem downloadconfig_positionally_aligned_witness :
    ((fun _ : String => Response.success wStore)
        ("https://cosmicweb.eu" ++ "/api/music/store/" ++ "t1")
      = Response.success wStore)
    ∧ ("agora-halos" : String) ≠ ""
    ∧ ((∃ cfg, fetch_downloadstore (fun _ => Response.success wStore)
          "https://cosmicweb.eu" "t1" "T0" = ⟨ProcResult.ok cfg, 1, 0⟩
        ∧ cfg.halo_names.length = cfg.halo_ids.length
        ∧ cfg.halo_ids.length = cfg.halo_urls.length
        ∧ cfg.halo_ids = wStore.halos
        ∧ (∀ i d, nthD cfg.halo_names i ("halo_" ++ toString d)
            = "halo_" ++ toString (nthD wStore.halos i d))
        ∧ (∀ i d, nthD cfg.halo_urls i
              (wStore.simulation.api_url ++ "/simulation/"
                ++ toString wStore.simulation.api_id ++ "/halo/" ++ toString d)
            = wStore.simulation.api_url ++ "/simulation/"
              ++ toString wStore.simulation.api_id ++ "/halo/"
              ++ toString (nthD wStore.halos i d)))
      ∧ (∃ cfg, fetch_multiple (fun _ => Response.success wMulti)
          "https://cosmicweb.eu" 2 (some "agora-halos") none "T0"
            = ⟨ProcResult.ok cfg, 1, 0⟩
        ∧ cfg.halo_names.length = cfg.halo_ids.length
        ∧ cfg.halo_ids.length = cfg.halo_urls.length
        ∧ (∀ i d, nthD cfg.halo_names i (d.name.getD (toString d.id))
            = (nthD wMulti.halos i d).name.getD
                (toString (nthD wMulti.halos i d).id))
        ∧ (∀ i d, nthD cfg.halo_ids i d.id = (nthD wMulti.halos i d).id)
        ∧ (∀ i d, nthD cfg.halo_urls i
              (wMulti.simulation.api_url ++ "/simulation/"
                ++ toString wMulti.simulation.api_id ++ "/halo/"
                ++ toString d.id)
            = wMulti.simulation.api_url ++ "/simulation/"
              ++ toString wMulti.simulation.api_id ++ "/halo/"
              ++ toString (nthD wMulti.halos i d).id))) :=
  ⟨rfl, by decide, downloadconfig_positionally_aligned
    (fun _ => Response.success wStore) (fun _ => Response.success wMulti)
    "https://cosmicweb.eu" "t1" "agora-halos" "T0" 2 wStore wMulti rfl
    (by decide) rfl⟩

/-! ## Claim C1: parameter substitution in the composed draft -/

theorem mem_headD_pySplit (c : Char) (line : String) (a : Char)
    (ha : a ∈ ((pySplit c line).headD line).data) : a ∈ line.data := by
  unfold pySplit at ha
  cases hs : splitOnChar c line.data with
  | nil => exact absurd hs (splitOnChar_ne_nil c line.data)
  | cons r rs =>
    rw [hs] at ha
    simp only [List.map_cons, List.headD_cons] at ha
    exact mem_splitOnChar_subset c line.data r (by rw [hs]; simp) a ha

theorem applyParamLine_eq (P : List (String × String)) (line : String) :
    applyParamLine P line
      = match P.lookup (pyStrip ((pySplit '=' line).headD line)) with
        | some v => ((pySplit '=' line).headD line) ++ "= " ++ v
        | none => line := rfl

theorem applyParamLine_no_newline (P : List (String × String)) (line : String)
    (hline : '\n' ∉ line.data)
    (hP : ∀ v ∈ P.map Prod.snd, '\n' ∉ v.data) :
    '\n' ∉ (applyParamLine P line).data := by
  cases hl : P.lookup (pyStrip ((pySplit '=' line).headD line)) with
  | none =>
    rw [applyParamLine_eq, hl]
    exact hline
  | some v =>
    rw [applyParamLine_eq, hl]
    show '\n' ∉ (((pySplit '=' line).headD line) ++ "= " ++ v).data
    intro hmem
    rw [data_append, data_append] at hmem
    rcases List.mem_append.mp hmem with h1 | h2
    · rcases List.mem_append.mp h1 with h1a | h1b
      · exact hline (mem_headD_pySplit '=' line '\n' h1a)
      · simp at h1b
    · exact hP v (lookup_mem_values P _ v hl) h2

theorem pyLines_pyJoinSep (ls : List String) (hne : ls ≠ [])
    (h : ∀ l ∈ ls, '\n' ∉ l.data) : pyLines (pyJoinSep "\n" ls) = ls := by
  unfold pyLines pySplit pyJoinSep
  rw [show ("\n").data = ['\n'] from rfl]
  rw [splitOnChar_joinSepL '\n' (ls.map String.data) (by simpa using hne)
    (by
      intro l hl
      obtain ⟨m, hm, hml⟩ := List.mem_map.mp hl
      rw [← hml]
      exact h m hm)]
  rw [List.map_map]
  have hid : String.mk ∘ String.data = id := funext (fun t => rfl)
  rw [hid, List.map_id]

theorem lookup_eq_none_of_not_mem {β : Type} (l : List (String × β))
    (k : String) (h : k ∉ l.map Prod.fst) : l.lookup k = none := by
  induction l with
  | nil => rfl
  | cons a l ih =>
    rcases a with ⟨a1, a2⟩
    simp only [List.map_cons, List.mem_cons, not_or] at h
    simp only [List.lookup]
    rw [show (k == a1) = false from beq_eq_false_iff_ne.mpr h.1]
    exact ih h.2

theorem pySplit_headD_of_eq (line pre rest : String)
    (hline : line.data = pre.data ++ '=' :: rest.data)
    (hpre : '=' ∉ pre.data) : (pySplit '=' line).headD line = pre := by
  unfold pySplit
  rw [hline, splitOnChar_append_cons, splitOnChar_eq_single '=' pre.data hpre]
  cases hs : splitOnChar '=' rest.data with
  | nil => exact absurd hs (splitOnChar_ne_nil '=' rest.data)
  | cons r rs => rfl

theorem applyParamLine_rewrites (P : List (String × String))
    (line pre rest v : String)
    (hline : line.data = pre.data ++ '=' :: rest.data)
    (hpre : '=' ∉ pre.data)
    (hlook : P.lookup (pyStrip pre) = some v) :
    applyParamLine P line = pre ++ "= " ++ v := by
  rw [applyParamLine_eq, pySplit_headD_of_eq line pre rest hline hpre, hlook]

theorem applyParamLine_unchanged (P : List (String × String)) (line : String)
    (hlook : P.lookup (pyStrip ((pySplit '=' line).headD line)) = none) :
    applyParamLine P line = line := by
  rw [applyParamLine_eq, hlook]

theorem musicBody_lines_head (config : DownloadConfig) :
    (pyLines (musicBody config)).head? = some ("[setup]") := by
  have hb : (musicBody config).data = ("[setup]").data ++ '\n' ::
      ((normalize_lineendings config.MUSIC.setup).data
        ++ (("\n\n<ELLIPSOID_TEMPLATE>\n\n[cosmology]\n").data
        ++ ((normalize_lineendings config.MUSIC.cosmology).data
        ++ (("\n\n[random]\n").data
        ++ ((normalize_lineendings config.MUSIC.random).data
        ++ (("\n\n[poisson]\n").data
        ++ ((normalize_lineendings config.MUSIC.poisson).data
        ++ ("\n\n").data))))))) := by
    simp only [musicBody, data_append, List.append_assoc]
    rfl
  unfold pyLines pySplit
  rw [List.head?_map, hb, splitOnChar_head '\n' _ _ (by decide)]
  rfl

theorem musicBody_lines_last (config : DownloadConfig) :
    (pyLines (musicBody config)).getLast? = some ("") := by
  have hb : (musicBody config).data
      = ((("[setup]\n" ++ normalize_lineendings config.MUSIC.setup
          ++ "\n\n<ELLIPSOID_TEMPLATE>\n\n[cosmology]\n"
          ++ normalize_lineendings config.MUSIC.cosmology ++ "\n\n[random]\n"
          ++ normalize_lineendings config.MUSIC.random ++ "\n\n[poisson]\n"
          ++ normalize_lineendings config.MUSIC.poisson).data ++ ['\n'])
        ++ ['\n']) := by
    show (("[setup]\n" ++ normalize_lineendings config.MUSIC.setup
        ++ "\n\n<ELLIPSOID_TEMPLATE>\n\n[cosmology]\n"
        ++ normalize_lineendings config.MUSIC.cosmology ++ "\n\n[random]\n"
        ++ normalize_lineendings config.MUSIC.random ++ "\n\n[poisson]\n"
        ++ normalize_lineendings config.MUSIC.poisson) ++ "\n\n").data = _
    rw [data_append, show ("\n\n").data = ['\n'] ++ ['\n'] from rfl,
      ← List.append_assoc]
  unfold pyLines pySplit
  rw [List.getLast?_map, hb, splitOnChar_getLast]
  rfl

/-- The draft always extends the parameter-substituted body on the right
when settings are present. -/
theorem draft_extends_applied (config : DownloadConfig) (s : Configuration)
    (hs : config.settings = some s) :
    ∃ T, (music_config_to_template config).data
      = (apply_config_parameter (musicBody config) (paramsOf s)).data ++ T := by
  by_cases ht : s.outputType = ""
  · refine ⟨("[output]\n# TODO: add output options").data, ?_⟩
    have hdraft : music_config_to_template config
        = apply_config_parameter (musicBody config) (paramsOf s)
          ++ "[output]\n# TODO: add output options" := by
      simp [music_config_to_template, hs, ht]
    rw [hdraft, data_append]
  · refine ⟨(outputBlock s).data ++ (("\n").data
      ++ (outputOptionsText s).data), ?_⟩
    have hdraft : music_config_to_template config
        = apply_config_parameter (musicBody config) (paramsOf s)
          ++ outputBlock s ++ "\n" ++ outputOptionsText s := by
      simp [music_config_to_template, hs, ht]
    rw [hdraft]
    simp [data_append, List.append_assoc]

/-- A non-first, non-last line of the assembled body reappears — rewritten
by `applyParamLine` — as an inner line of the final draft. -/
theorem draft_innerLine_of_body_line (config : DownloadConfig)
    (s : Configuration) (hs : config.settings = some s) (line out : String)
    (hmem : line ∈ pyLines (musicBody config))
    (hhead : line ≠ "[setup]") (hne : line ≠ "")
    (hrw : applyParamLine (paramsOf s) line = out) :
    hasInnerLine (music_config_to_template config) out := by
  have hh2 : (pyLines (musicBody config)).head? ≠ some line := by
    rw [musicBody_lines_head]
    intro h
    exact hhead (Option.some.inj h).symm
  have hl2 : (pyLines (musicBody config)).getLast? ≠ some line := by
    rw [musicBody_lines_last]
    intro h
    exact hne (Option.some.inj h).symm
  obtain ⟨u, v, hdec, hu, hv⟩ :=
    mem_decomp_inner (pyLines (musicBody config)) line hmem hh2 hl2
  have happ : (apply_config_parameter (musicBody config) (paramsOf s)).data
      = joinSepL ['\n'] (((pyLines (musicBody config)).map
          (applyParamLine (paramsOf s))).map String.data) := rfl
  rw [hdec] at happ
  simp only [List.map_append, List.map_cons] at happ
  rw [hrw] at happ
  obtain ⟨x, y, hxy⟩ := joinSepL_inner '\n'
    ((u.map (applyParamLine (paramsOf s))).map String.data)
    ((v.map (applyParamLine (paramsOf s))).map String.data) out.data
    (by simp [hu]) (by simp [hv])
  rw [hxy] at happ
  obtain ⟨T, hT⟩ := draft_extends_applied config s hs
  refine ⟨x, y ++ T, ?_⟩
  rw [hT, happ]
  simp [List.append_assoc]

/-- C1 (amended): with settings `resolution = {low: 8, high: 12}`,
`startRedshift = 99`, the substituted body is the line-by-line image of
the assembled body under `applyParamLine`; a line whose stripped prefix
before the first `=` is none of the four parameter names is unchanged; a
line whose stripped prefix equals a parameter name is rewritten to its
prefix followed by `= ` and the new value (8, 8, 12, 99), the entire
remainder after the prefix being replaced; consequently whenever the body
has a line of the conventional form `name =...` (name, one space, `=`),
the final draft contains the corresponding line `name = value` — the
claim's unconditional "the draft contains the lines levelmin = 8, ..."
holds only under that proviso (see the counterexample). -/
theorem music_template_param_substitution (config : DownloadConfig)
    (s : Configuration) (hs : config.settings = some s)
    (hlo : s.resolution.low = 8) (hhi : s.resolution.high = 12)
    (hz : s.startRedshift = 99) :
    pyLines (apply_config_parameter (musicBody config) (paramsOf s))
      = (pyLines (musicBody config)).map (applyParamLine (paramsOf s))
    ∧ (∀ line : String,
        pyStrip ((pySplit '=' line).headD line)
          ∉ ["levelmin", "levelmin_TF", "levelmax", "zstart"] →
        applyParamLine (paramsOf s) line = line)
    ∧ (∀ line pre rest name v : String,
        line.data = pre.data ++ '=' :: rest.data → '=' ∉ pre.data →
        pyStrip pre = name →
        (name, v) ∈ [("levelmin", "8"), ("levelmin_TF", "8"),
          ("levelmax", "12"), ("zstart", "99")] →
        applyParamLine (paramsOf s) line = pre ++ "= " ++ v)
    ∧ (∀ rest : String, ∀ nl ∈ [("levelmin =", "levelmin = 8"),
          ("levelmin_TF =", "levelmin_TF = 8"),
          ("levelmax =", "levelmax = 12"), ("zstart =", "zstart = 99")],
        (nl.1 ++ rest) ∈ pyLines (musicBody config) →
        hasInnerLine (music_config_to_template config) nl.2) := by
  have hlook1 : (paramsOf s).lookup ("levelmin") = some ("8") := by
    simp only [paramsOf, hlo, hhi, hz]
    decide
  have hlook2 : (paramsOf s).lookup ("levelmin_TF") = some ("8") := by
    simp only [paramsOf, hlo, hhi, hz]
    decide
  have hlook3 : (paramsOf s).lookup ("levelmax") = some ("12") := by
    simp only [paramsOf, hlo, hhi, hz]
    decide
  have hlook4 : (paramsOf s).lookup ("zstart") = some ("99") := by
    simp only [paramsOf, hlo, hhi, hz]
    decide
  have hP : ∀ v ∈ (paramsOf s).map Prod.snd, '\n' ∉ v.data := by
    intro v hv
    simp only [paramsOf, hlo, hhi, hz, List.map_cons, List.map_nil,
      List.mem_cons, List.not_mem_nil, or_false] at hv
    rcases hv with h | h | h | h <;> subst h <;> decide
  have hc : ∀ (line pre rest name v : String),
      line.data = pre.data ++ '=' :: rest.data → '=' ∉ pre.data →
      pyStrip pre = name →
      (name, v) ∈ [("levelmin", "8"), ("levelmin_TF", "8"),
        ("levelmax", "12"), ("zstart", "99")] →
      applyParamLine (paramsOf s) line = pre ++ "= " ++ v := by
    intro line pre rest name v hline hpre hstrip hnv
    simp only [List.mem_cons, List.not_mem_nil, or_false, Prod.mk.injEq] at hnv
    rcases hnv with ⟨h1, h2⟩ | ⟨h1, h2⟩ | ⟨h1, h2⟩ | ⟨h1, h2⟩
    · subst h1; subst h2
      exact applyParamLine_rewrites _ line pre rest _ hline hpre
        (by rw [hstrip]; exact hlook1)
    · subst h1; subst h2
      exact applyParamLine_rewrites _ line pre rest _ hline hpre
        (by rw [hstrip]; exact hlook2)
    · subst h1; subst h2
      exact applyParamLine_rewrites _ line pre rest _ hline hpre
        (by rw [hstrip]; exact hlook3)
    · subst h1; subst h2
      exact applyParamLine_rewrites _ line pre rest _ hline hpre
        (by rw [hstrip]; exact hlook4)
  refine ⟨?_, ?_, hc, ?_⟩
  · apply pyLines_pyJoinSep
    · have : pyLines (musicBody config) ≠ [] := by
        unfold pyLines pySplit
        simp [splitOnChar_ne_nil]
      simpa using this
    · intro l hl
      obtain ⟨m, hm, hml⟩ := List.mem_map.mp hl
      rw [← hml]
      apply applyParamLine_no_newline _ _ _ hP
      obtain ⟨part, hpart, hmp⟩ := List.mem_map.mp hm
      rw [← hmp]
      exact not_mem_of_mem_splitOnChar '\n' (musicBody config).data part hpart
  · intro line hnot
    apply applyParamLine_unchanged
    apply lookup_eq_none_of_not_mem
    intro hmemk
    have hkeys : (paramsOf s).map Prod.fst
        = ["levelmin", "levelmin_TF", "levelmax", "zstart"] := rfl
    rw [hkeys] at hmemk
    exact hnot hmemk
  · intro rest nl hnl hmem
    simp only [List.mem_cons, List.not_mem_nil, or_false] at hnl
    rcases hnl with h | h | h | h <;> subst h
    · refine draft_innerLine_of_body_line config s hs _ _ hmem
        (fun hq => by
          have h1 : (("levelmin =" ++ rest) : String).data.head?
              = some 'l' := rfl
          rw [hq] at h1
          exact absurd h1 (by decide))
        (fun hq => by
          have h1 : (("levelmin =" ++ rest) : String).data.head?
              = some 'l' := rfl
          rw [hq] at h1
          exact absurd h1 (by decide)) ?_
      have h48 : ("levelmin =" ++ rest).data
          = ("levelmin ").data ++ '=' :: rest.data := by
        rw [data_append, show ("levelmin =").data
          = ("levelmin ").data ++ ['='] from rfl, List.append_assoc,
          List.singleton_append]
      exact (hc ("levelmin =" ++ rest) ("levelmin ") rest ("levelmin") ("8")
        h48 (by decide) (by decide) (by simp)).trans rfl
    · refine draft_innerLine_of_body_line config s hs _ _ hmem
        (fun hq => by
          have h1 : (("levelmin_TF =" ++ rest) : String).data.head?
              = some 'l' := rfl
          rw [hq] at h1
          exact absurd h1 (by decide))
        (fun hq => by
          have h1 : (("levelmin_TF =" ++ rest) : String).data.head?
              = some 'l' := rfl
          rw [hq] at h1
          exact absurd h1 (by decide)) ?_
      have h48 : ("levelmin_TF =" ++ rest).data
          = ("levelmin_TF ").data ++ '=' :: rest.data := by
        rw [data_append, show ("levelmin_TF =").data
          = ("levelmin_TF ").data ++ ['='] from rfl, List.append_assoc,
          List.singleton_append]
      exact (hc ("levelmin_TF =" ++ rest) ("levelmin_TF ") rest
        ("levelmin_TF") ("8") h48 (by decide) (by decide) (by simp)).trans rfl
    · refine draft_innerLine_of_body_line config s hs _ _ hmem
        (fun hq => by
          have h1 : (("levelmax =" ++ rest) : String).data.head?
              = some 'l' := rfl
          rw [hq] at h1
          exact absurd h1 (by decide))
        (fun hq => by
          have h1 : (("levelmax =" ++ rest) : String).data.head?
              = some 'l' := rfl
          rw [hq] at h1
          exact absurd h1 (by decide)) ?_
      have h48 : ("levelmax =" ++ rest).data
          = ("levelmax ").data ++ '=' :: rest.data := by
        rw [data_append, show ("levelmax =").data
          = ("levelmax ").data ++ ['='] from rfl, List.append_assoc,
          List.singleton_append]
      exact (hc ("levelmax =" ++ rest) ("levelmax ") rest ("levelmax") ("12")
        h48 (by decide) (by decide) (by simp)).trans rfl
    · refine draft_innerLine_of_body_line config s hs _ _ hmem
        (fun hq => by
          have h1 : (("zstart =" ++ rest) : String).data.head?
              = some 'z' := rfl
          rw [hq] at h1
          exact absurd h1 (by decide))
        (fun hq => by
          have h1 : (("zstart =" ++ rest) : String).data.head?
              = some 'z' := rfl
          rw [hq] at h1
          exact absurd h1 (by decide)) ?_
      have h48 : ("zstart =" ++ rest).data
          = ("zstart ").data ++ '=' :: rest.data := by
        rw [data_append, show ("zstart =").data
          = ("zstart ").data ++ ['='] from rfl, List.append_assoc,
          List.singleton_append]
      exact (hc ("zstart =" ++ rest) ("zstart ") rest ("zstart") ("99")
        h48 (by decide) (by decide) (by simp)).trans rfl

/-- C1 counterexample: a DownloadConfig with the claimed settings whose
setup section writes `levelmin=7` (no space before `=`).  The code
rewrites it to `levelmin= 8`, so the draft does not contain the line
`levelmin = 8` anywhere — the claim's unconditional containment fails. -/
theorem music_template_containment_cex :
    cexC1cfg.settings = some cexC1settings
    ∧ cexC1settings.resolution.low = 8
    ∧ cexC1settings.resolution.high = 12
    ∧ cexC1settings.startRedshift = 99
    ∧ occursB ("levelmin = 8").data
        (music_config_to_template cexC1cfg).data = false
    ∧ occursB ("levelmin= 8").data
        (music_config_to_template cexC1cfg).data = true :=
  ⟨rfl, rfl, rfl, rfl, by decide, by decide⟩

/-- Witness for C1 at a concrete configuration, with the containment
conjunct also instantiated on the setup line `levelmin = 7`. -/
theorem music_template_param_substitution_witness :
    wC1cfg.settings = some wC1settings
    ∧ wC1settings.resolution.low = 8
    ∧ wC1settings.resolution.high = 12
    ∧ wC1settings.startRedshift = 99
    ∧ (pyLines (apply_config_parameter (musicBody wC1cfg)
          (paramsOf wC1settings))
        = (pyLines (musicBody wC1cfg)).map (applyParamLine (paramsOf wC1settings))
      ∧ (∀ line : String,
          pyStrip ((pySplit '=' line).headD line)
            ∉ ["levelmin", "levelmin_TF", "levelmax", "zstart"] →
          applyParamLine (paramsOf wC1settings) line = line)
      ∧ (∀ line pre rest name v : String,
          line.data = pre.data ++ '=' :: rest.data → '=' ∉ pre.data →
          pyStrip pre = name →
          (name, v) ∈ [("levelmin", "8"), ("levelmin_TF", "8"),
            ("levelmax", "12"), ("zstart", "99")] →
          applyParamLine (paramsOf wC1settings) line = pre ++ "= " ++ v)
      ∧ (∀ rest : String, ∀ nl ∈ [("levelmin =", "levelmin = 8"),
            ("levelmin_TF =", "levelmin_TF = 8"),
            ("levelmax =", "levelmax = 12"), ("zstart =", "zstart = 99")],
          (nl.1 ++ rest) ∈ pyLines (musicBody wC1cfg) →
          hasInnerLine (music_config_to_template wC1cfg) nl.2))
    ∧ hasInnerLine (music_config_to_template wC1cfg) ("levelmin = 8") :=
  ⟨rfl, rfl, rfl, rfl,
   music_template_param_substitution wC1cfg wC1settings rfl rfl rfl rfl,
   (music_template_param_substitution wC1cfg wC1settings rfl rfl rfl
     rfl).2.2.2 (" 7") ("levelmin =", "levelmin = 8") (by simp) (by decide)⟩

/-! ## Claim C5: per-halo template composition -/

theorem pyReplace_token_data (s rep : String) :
    (pyReplace s ("<ELLIPSOID_TEMPLATE>") rep).data
      = replaceFrom '<' (("ELLIPSOID_TEMPLATE>").data) rep.data 0 s.data := rfl

theorem pyReplace_single (template pre post rep : String)
    (hsplit : template.data = pre.data
      ++ (("<ELLIPSOID_TEMPLATE>").data ++ post.data))
    (hfirst : ∀ i < pre.data.length,
      isPref ("<ELLIPSOID_TEMPLATE>").data
        (pre.data.drop i ++ (("<ELLIPSOID_TEMPLATE>").data ++ post.data))
        = false)
    (hpost : occursB ("<ELLIPSOID_TEMPLATE>").data post.data = false) :
    pyReplace template ("<ELLIPSOID_TEMPLATE>") rep = pre ++ (rep ++ post) := by
  have htok : ("<ELLIPSOID_TEMPLATE>").data
      = '<' :: (("ELLIPSOID_TEMPLATE>").data) := rfl
  apply String.ext
  rw [pyReplace_token_data, hsplit, data_append, data_append]
  rw [htok] at hfirst hpost
  exact replaceFrom_single '<' (("ELLIPSOID_TEMPLATE>").data) rep.data
    post.data hpost pre.data hfirst

/-- C5 (amended): `compose_template` prepends the provenance header (halo
id, halo name, simulation name, project name, constructed URL, injected
ISO timestamp) ending in a newline followed by two blank lines, then the
draft in which *every* occurrence of `<ELLIPSOID_TEMPLATE>` has been
replaced by the ellipsoid block (`str.replace` replaces all occurrences,
not only the first), then one trailing newline.  For a draft containing
exactly one occurrence — `template = pre ++ token ++ post` with no match
starting inside `pre` and none inside `post` — the result is exactly the
header, `pre`, the block (three comma-joined matrix rows and a
comma-joined center row preceded by the fixed comment lines naming the
traceback radius and its definition string), `post`, and a newline. -/
theorem compose_template_single_occurrence
    (template pre post : String) (e : Ellipsoid) (config : DownloadConfig)
    (halo_name : String) (halo_id : Int) (now : String)
    (r0 r1 r2 : List Rat)
    (hshape : e.shape = [r0, r1, r2])
    (hsplit : template.data = pre.data
      ++ (("<ELLIPSOID_TEMPLATE>").data ++ post.data))
    (hfirst : ∀ i < pre.data.length,
      isPref ("<ELLIPSOID_TEMPLATE>").data
        (pre.data.drop i ++ (("<ELLIPSOID_TEMPLATE>").data ++ post.data))
        = false)
    (hpost : occursB ("<ELLIPSOID_TEMPLATE>").data post.data = false) :
    compose_template template e config halo_name halo_id now
      = "# Zoom Initial Conditions for halo " ++ toString halo_id ++ " ("
        ++ halo_name ++ ") in simulation " ++ config.simulation_name ++ " ("
        ++ config.project_name ++ " project)\n"
        ++ "# Details on this halo can be found on https://cosmicweb.eu/simulation/"
        ++ config.simulation_name ++ "/halo/" ++ toString halo_id ++ "\n"
        ++ "# This file has been generated by CosmICweb @" ++ now
        ++ "\n\n\n"
        ++ pre
        ++ ("# Ellipsoidal refinement region defined on unity cube\n"
          ++ "# This minimum bounding ellipsoid has been obtained from\n"
          ++ "# particles within " ++ pyFloatStr e.traceback_radius ++ " "
          ++ e.radius_definition ++ " of the halo center\n"
          ++ "region = ellipsoid\n"
          ++ "region_ellipsoid_matrix[0] = "
            ++ pyJoinSep ", " (r0.map pyFloatStr) ++ "\n"
          ++ "region_ellipsoid_matrix[1] = "
            ++ pyJoinSep ", " (r1.map pyFloatStr) ++ "\n"
          ++ "region_ellipsoid_matrix[2] = "
            ++ pyJoinSep ", " (r2.map pyFloatStr) ++ "\n"
          ++ "region_ellipsoid_center    = "
            ++ pyJoinSep ", " (e.center.map pyFloatStr) ++ "\n")
        ++ post ++ "\n" := by
  simp only [compose_template, hshape, List.getD_cons_zero, List.getD_cons_succ]
  rw [pyReplace_single template pre post _ hsplit hfirst hpost]
  apply String.ext
  simp [data_append, List.append_assoc]

/-- C5 counterexample: on a draft containing the placeholder twice,
`compose_template` replaces *both* occurrences — the token no longer
occurs anywhere in the result, whereas a first-occurrence-only
substitution would leave the second `<ELLIPSOID_TEMPLATE>` in place. -/
theorem compose_template_replaces_every_occurrence :
    occursB ("<ELLIPSOID_TEMPLATE>").data
      (compose_template ("<ELLIPSOID_TEMPLATE>x<ELLIPSOID_TEMPLATE>")
        cexC5ell cexC5cfg "h" 0 "T").data = false
    ∧ occursB ("region = ellipsoid").data
      (compose_template ("<ELLIPSOID_TEMPLATE>x<ELLIPSOID_TEMPLATE>")
        cexC5ell cexC5cfg "h" 0 "T").data = true := by
  constructor
  · decide
  · decide

/-- Witness for C5 on the single-occurrence draft
`"A\n<ELLIPSOID_TEMPLATE>\nB"` with `pre = "A\n"` and `post = "\nB"`. -/
theorem compose_template_single_occurrence_witness :
    cexC5ell.shape = [[1, 0, 0], [0, 1, 0], [0, 0, 1]]
    ∧ ("A\n<ELLIPSOID_TEMPLATE>\nB" : String).data
      = ("A\n" : String).data
        ++ (("<ELLIPSOID_TEMPLATE>").data ++ ("\nB" : String).data)
    ∧ (∀ i < ("A\n" : String).data.length,
      isPref ("<ELLIPSOID_TEMPLATE>").data
        (("A\n" : String).data.drop i
          ++ (("<ELLIPSOID_TEMPLATE>").data ++ ("\nB" : String).data))
        = false)
    ∧ occursB ("<ELLIPSOID_TEMPLATE>").data ("\nB" : String).data = false
    ∧ compose_template ("A\n<ELLIPSOID_TEMPLATE>\nB") cexC5ell cexC5cfg
        "halo_7" 7 "T1"
      = "# Zoom Initial Conditions for halo " ++ toString (7 : Int) ++ " ("
        ++ "halo_7" ++ ") in simulation " ++ cexC5cfg.simulation_name ++ " ("
        ++ cexC5cfg.project_name ++ " project)\n"
        ++ "# Details on this halo can be found on https://cosmicweb.eu/simulation/"
        ++ cexC5cfg.simulation_name ++ "/halo/" ++ toString (7 : Int) ++ "\n"
        ++ "# This file has been generated by CosmICweb @" ++ "T1"
        ++ "\n\n\n"
        ++ "A\n"
        ++ ("# Ellipsoidal refinement region defined on unity cube\n"
          ++ "# This minimum bounding ellipsoid has been obtained from\n"
          ++ "# particles within " ++ pyFloatStr cexC5ell.traceback_radius
          ++ " " ++ cexC5ell.radius_definition ++ " of the halo center\n"
          ++ "region = ellipsoid\n"
          ++ "region_ellipsoid_matrix[0] = "
            ++ pyJoinSep ", " (List.map pyFloatStr [1, 0, 0]) ++ "\n"
          ++ "region_ellipsoid_matrix[1] = "
            ++ pyJoinSep ", " (List.map pyFloatStr [0, 1, 0]) ++ "\n"
          ++ "region_ellipsoid_matrix[2] = "
            ++ pyJoinSep ", " (List.map pyFloatStr [0, 0, 1]) ++ "\n"
          ++ "region_ellipsoid_center    = "
            ++ pyJoinSep ", " (cexC5ell.center.map pyFloatStr) ++ "\n")
        ++ "\nB" ++ "\n" :=
  ⟨rfl, by decide, by decide, by decide,
   compose_template_single_occurrence ("A\n<ELLIPSOID_TEMPLATE>\nB") ("A\n")
     ("\nB") cexC5ell cexC5cfg "halo_7" 7 "T1" [1, 0, 0] [0, 1, 0] [0, 0, 1]
     rfl (by decide) (by decide) (by decide)⟩

/-! ## Claim C4: output path selection of process_config -/

theorem fetchAllEllipsoids_length
    (responses : String → Nat → Response (List RawEllipsoid))
    (traceback_radius : Rat) (attempts : Nat) :
    ∀ (l : List (String × String)) (os : List (Option Ellipsoid)),
    fetchAllEllipsoids responses traceback_radius attempts l = Except.ok os →
    os.length = l.length := by
  intro l
  induction l with
  | nil =>
    intro os h
    unfold fetchAllEllipsoids at h
    simp only [Except.ok.injEq] at h
    rw [← h]
    rfl
  | cons nu rest ih =>
    intro os h
    unfold fetchAllEllipsoids at h
    split at h
    · exact absurd h (by simp)
    · split at h
      · exact absurd h (by simp)
      · rename_i o hout os2 hrec
        simp only [Except.ok.injEq] at h
        rw [← h]
        simp [ih os2 hrec]

/-- C4 (amended): the `common_directory` path layout is chosen from the
number of halos in the download configuration (the length of the fetched
ellipsoid list, which counts skipped halos too), not from the number of
files actually produced: every produced pair gets path
`{output_path}/{halo_name}/ics.cfg` when `common_directory` is set and the
configuration carries more than one halo, and
`{output_path}/ics_{halo_name}.cfg` otherwise. -/
theorem process_config_path_selection
    (responses : String → Nat → Response (List RawEllipsoid))
    (config : DownloadConfig) (args : Args) (now : String)
    (out : List (String × String))
    (hlen : config.halo_names.length = config.halo_urls.length)
    (hok : process_config responses config args now = Except.ok out) :
    ∀ pc ∈ out, ∃ name ∈ config.halo_names,
      pc.1 = if args.common_directory ∧ config.halo_names.length > 1
        then pathJoin (pathJoin args.output_path name) ("ics.cfg")
        else pathJoin args.output_path ("ics_" ++ name ++ ".cfg") := by
  intro pc hpc
  unfold process_config at hok
  split at hok
  · exact absurd hok (by simp)
  · rename_i ellipsoids hfetch
    simp only [Except.ok.injEq] at hok
    subst hok
    obtain ⟨nie, hmem, heq⟩ := List.mem_filterMap.mp hpc
    have hmem2 : (nie.1, nie.2) ∈ config.halo_names.zip
        (config.halo_ids.zip ellipsoids) := by simpa using hmem
    have hname : nie.1 ∈ config.halo_names := (List.of_mem_zip hmem2).1
    have hlen2 : ellipsoids.length = config.halo_names.length := by
      rw [fetchAllEllipsoids_length responses config.traceback_radius
        args.attempts _ _ hfetch]
      simp [hlen]
    cases hcase : nie.2.2 with
    | none =>
      rw [hcase] at heq
      simp at heq
    | some ell =>
      rw [hcase] at heq
      simp only [Option.some.injEq] at heq
      refine ⟨nie.1, hname, ?_⟩
      rw [← heq, hlen2]

/-- C4 counterexample: with `common_directory = true`, two halos in the
configuration but exactly one halo produced (halo_a is skipped because its
ellipsoid fetch fails), the single produced file still goes to
`out/halo_b/ics.cfg`, not to the `out/ics_halo_b.cfg` that the claim
asserts for a run producing exactly one halo. -/
theorem process_config_single_produced_path_cex :
    (process_config cexC4responses cexC4cfg cexC4args "T0").map
        (List.map Prod.fst)
      = Except.ok ["out/halo_b/ics.cfg"]
    ∧ ("out/halo_b/ics.cfg" : String) ≠ "out/ics_halo_b.cfg" :=
  ⟨rfl, by decide⟩

/-- Witness for C4 at a concrete two-halo run with `common_directory`. -/
theorem process_config_path_selection_witness :
    cexC4cfg.halo_names.length = cexC4cfg.halo_urls.length
    ∧ process_config wC4responses cexC4cfg cexC4args "T0" = Except.ok wC4out
    ∧ (∀ pc ∈ wC4out, ∃ name ∈ cexC4cfg.halo_names,
        pc.1 = if cexC4args.common_directory ∧ cexC4cfg.halo_names.length > 1
          then pathJoin (pathJoin cexC4args.output_path name) ("ics.cfg")
          else pathJoin cexC4args.output_path ("ics_" ++ name ++ ".cfg")) :=
  ⟨rfl, rfl, process_config_path_selection wC4responses cexC4cfg cexC4args
    "T0" wC4out rfl rfl⟩

/-! ## Claim C10: lines without an equals sign -/

/-- C10: a line with no `=` at all is matched against the parameter dict
by its entire stripped content — `line.split("=")[0]` is the whole line —
so a bare recognized parameter name is rewritten to the original line text
followed by `= value` instead of passing through; concretely a bare
`levelmin` line becomes `levelmin= 8`, which differs from the original. -/
theorem bare_parameter_line_rewritten (line : String)
    (parameters : List (String × String)) (v : String)
    (hne : '=' ∉ line.data)
    (hlook : parameters.lookup (pyStrip line) = some v) :
    applyParamLine parameters line = line ++ "= " ++ v
    ∧ applyParamLine [("levelmin", "8")] ("levelmin") = "levelmin= 8"
    ∧ applyParamLine [("levelmin", "8")] ("levelmin") ≠ "levelmin" := by
  have hsplit : pySplit '=' line = [line] := by
    unfold pySplit
    rw [splitOnChar_eq_single '=' line.data hne]
    rfl
  refine ⟨?_, by decide, by decide⟩
  unfold applyParamLine
  rw [hsplit]
  simp only [List.headD_cons]
  rw [hlook]

/-- Witness for C10 at the concrete bare line `levelmin`. -/
theorem bare_parameter_line_rewritten_witness :
    '=' ∉ ("levelmin" : String).data
    ∧ List.lookup (pyStrip ("levelmin")) [("levelmin", "8")] = some "8"
    ∧ (applyParamLine [("levelmin", "8")] ("levelmin")
        = "levelmin" ++ "= " ++ "8"
      ∧ applyParamLine [("levelmin", "8")] ("levelmin") = "levelmin= 8"
      ∧ applyParamLine [("levelmin", "8")] ("levelmin") ≠ "levelmin") :=
  ⟨by decide, by decide, bare_parameter_line_rewritten ("levelmin")
    [("levelmin", "8")] "8" (by decide) (by decide)⟩

end CosmICweb
